import Mathlib

/-!
# hdTanto: the rasterising scene renderer of `tantoren/render.c`

A shallow embedding of `src/tantoren/render.c`.  The module-level variables of the
C file become one record (`Renderer`), every function becomes a state transformer on
that record, and every call into Vulkan or into the `tanto` library is appended to a
call log carried by the state, so that the order of native calls can be stated.

Conventions.
* `assert` and `V_ASSERT` are active (the build is not `NDEBUG`): a failed assertion
  ends the run in `Outcome.assertFailed`, carrying the state at the point of failure.
* An access to one of the three `MAX_PRIM_COUNT`-sized tables at an index outside the
  table has no defined behaviour in C; it ends the run in `Outcome.outOfBounds`.
* Machine integers are natural numbers, reduced explicitly where the C type wraps.
* Floating-point data is only ever copied, never computed with, so matrices and
  materials are type parameters and float literals are kept as written.
-/

namespace HdTanto

/-! ## Constants and enumerations named by the source -/

/-- The `#define MAX_PRIM_COUNT 100` of render.c. -/
def MAX_PRIM_COUNT : Nat := 100

/-- The value `VK_SUCCESS` of `VkResult`. -/
def VK_SUCCESS : Int := 0

/-- The two image formats render.c names. -/
inductive VkFormat where
  | VK_FORMAT_R8G8B8A8_UNORM
  | VK_FORMAT_D32_SFLOAT
  deriving DecidableEq

/-- The flag and enumeration constants render.c passes to native calls, kept symbolic. -/
inductive VkConst where
  | VK_IMAGE_USAGE_COLOR_ATTACHMENT_BIT
  | VK_IMAGE_USAGE_TRANSFER_SRC_BIT
  | VK_IMAGE_USAGE_DEPTH_STENCIL_ATTACHMENT_BIT
  | VK_IMAGE_USAGE_SAMPLED_BIT
  | VK_IMAGE_ASPECT_COLOR_BIT
  | VK_IMAGE_ASPECT_DEPTH_BIT
  | VK_SAMPLE_COUNT_1_BIT
  | VK_ATTACHMENT_LOAD_OP_CLEAR
  | VK_ATTACHMENT_LOAD_OP_DONT_CARE
  | VK_ATTACHMENT_STORE_OP_STORE
  | VK_ATTACHMENT_STORE_OP_DONT_CARE
  | VK_IMAGE_LAYOUT_UNDEFINED
  | VK_IMAGE_LAYOUT_TRANSFER_SRC_OPTIMAL
  | VK_IMAGE_LAYOUT_COLOR_ATTACHMENT_OPTIMAL
  | VK_IMAGE_LAYOUT_DEPTH_STENCIL_ATTACHMENT_OPTIMAL
  | VK_PIPELINE_BIND_POINT_GRAPHICS
  | VK_SUBPASS_CONTENTS_INLINE
  | VK_DESCRIPTOR_TYPE_UNIFORM_BUFFER
  | VK_SHADER_STAGE_VERTEX_BIT
  | VK_SHADER_STAGE_FRAGMENT_BIT
  | VK_BUFFER_USAGE_UNIFORM_BUFFER_BIT
  | VK_FRONT_FACE_COUNTER_CLOCKWISE
  | VK_CULL_MODE_FRONT_BIT
  | VK_POLYGON_MODE_FILL
  | VK_STRUCTURE_TYPE_FRAMEBUFFER_CREATE_INFO
  | VK_STRUCTURE_TYPE_WRITE_DESCRIPTOR_SET
  | VK_STRUCTURE_TYPE_COMMAND_BUFFER_BEGIN_INFO
  | VK_STRUCTURE_TYPE_RENDER_PASS_BEGIN_INFO
  | TANTO_V_MEMORY_HOST_GRAPHICS_TYPE
  | TANTO_V_QUEUE_GRAPHICS_TYPE
  | TANTO_R_PIPELINE_RASTER_TYPE
  | TANTO_VERT_INDEX_TYPE
  deriving DecidableEq

/-- The enumerator `R_PIPE_LAYOUT_MAIN` (the only one of `R_PipelineLayoutId`). -/
def R_PIPE_LAYOUT_MAIN : Nat := 0

/-- The enumerator `R_DESC_SET_MAIN` (the only one of `R_DescriptorSetId`). -/
def R_DESC_SET_MAIN : Nat := 0

/-- The `#define SPVDIR` of render.c. -/
def SPVDIR : String := "./shaders/spv"

/-! ## Records of the `tanto` library, with the fields render.c reads or writes -/

/-- Modelled from the spec: `Tanto_V_BufferRegion` is declared in tanto/v_memory.h, outside
these sources.  render.c reads its `buffer`, `offset`, `size` and `hostData` members;
`hostData` is the address of the mapped memory. -/
structure Tanto_V_BufferRegion where
  buffer : Nat
  offset : Nat
  size : Nat
  hostData : Nat
  deriving DecidableEq

/-- Modelled from the spec: `Tanto_R_Primitive` is declared in the tanto library, outside
these sources: "a vertex-data region, an index-data region, a per-attribute byte offset
list, and an index count".  Of `attrOffsets` render.c reads entries 0 and 1. -/
structure Tanto_R_Primitive where
  vertexRegion : Tanto_V_BufferRegion
  indexRegion : Tanto_V_BufferRegion
  attrOffsets : Fin 2 → Nat
  indexCount : Nat

/-- The Vulkan record `VkExtent3D`. -/
structure VkExtent3D where
  width : Nat
  height : Nat
  depth : Nat
  deriving DecidableEq

/-- Modelled from the spec: `Tanto_V_Image` is declared in tanto/v_image.h, outside these
sources.  render.c reads its `handle`, `view` and `extent` members. -/
structure Tanto_V_Image where
  handle : Nat
  view : Nat
  extent : VkExtent3D
  deriving DecidableEq

/-- Modelled from the spec: `Tanto_V_CommandPool` is declared in tanto/v_command.h, outside
these sources.  render.c reads its `handle` and `buffer` members. -/
structure Tanto_V_CommandPool where
  handle : Nat
  buffer : Nat
  deriving DecidableEq

/-- Modelled from the spec: `Tanto_Camera` is declared in the tanto library, outside these
sources.  render.c reads its `view` and `proj` matrices. -/
structure Tanto_Camera (Mat4 : Type) where
  view : Mat4
  proj : Mat4

/-- The record `CameraUBO` of render.c. -/
structure CameraUBO (Mat4 : Type) where
  matView : Mat4
  matProj : Mat4
  viewInv : Mat4
  projInv : Mat4

/-! ## Arguments of the native calls -/

/-- One `VkAttachmentDescription` as `initRenderPass` fills it. -/
structure VkAttachmentDescription where
  flags : Nat
  format : VkFormat
  samples : VkConst
  loadOp : VkConst
  storeOp : VkConst
  stencilLoadOp : VkConst
  stencilStoreOp : VkConst
  initialLayout : VkConst
  finalLayout : VkConst
  deriving DecidableEq

/-- One `VkAttachmentReference`. -/
structure VkAttachmentReference where
  attachment : Nat
  layout : VkConst
  deriving DecidableEq

/-- The `VkSubpassDescription` of `initRenderPass`; absent pointers are `none` or empty. -/
structure VkSubpassDescription where
  flags : Nat
  pipelineBindPoint : VkConst
  inputAttachmentCount : Nat
  colorAttachmentCount : Nat
  pColorAttachments : List VkAttachmentReference
  pDepthStencilAttachment : Option VkAttachmentReference
  preserveAttachmentCount : Nat
  deriving DecidableEq

/-- The `Tanto_R_RenderPassInfo` handed to `tanto_r_CreateRenderPass`. -/
structure Tanto_R_RenderPassInfo where
  attachmentCount : Nat
  pAttachments : List VkAttachmentDescription
  subpassCount : Nat
  pSubpasses : List VkSubpassDescription
  deriving DecidableEq

/-- The `VkFramebufferCreateInfo` of `initFramebuffer`. -/
structure VkFramebufferCreateInfo where
  sType : VkConst
  flags : Nat
  renderPass : Nat
  attachmentCount : Nat
  pAttachments : List Nat
  width : Nat
  height : Nat
  layers : Nat
  deriving DecidableEq

/-- One binding of a `Tanto_R_DescriptorSet`. -/
structure Tanto_R_DescriptorBinding where
  descriptorCount : Nat
  type : VkConst
  stageFlags : List VkConst
  deriving DecidableEq

/-- The `Tanto_R_DescriptorSet` description of `initDescriptorSetsAndPipelineLayouts`. -/
structure Tanto_R_DescriptorSet where
  id : Nat
  bindingCount : Nat
  bindings : List Tanto_R_DescriptorBinding
  deriving DecidableEq

/-- The `Tanto_R_PipelineLayout` description of `initDescriptorSetsAndPipelineLayouts`. -/
structure Tanto_R_PipelineLayout where
  id : Nat
  descriptorSetCount : Nat
  descriptorSetIds : List Nat
  pushConstantCount : Nat
  deriving DecidableEq

/-- The `Tanto_R_PipelineInfo` of `initPipelines`, with its raster payload inlined. -/
structure Tanto_R_PipelineInfo where
  type : VkConst
  layoutId : Nat
  renderPass : Nat
  sampleCount : VkConst
  frontFace : VkConst
  cullMode : VkConst
  polygonMode : VkConst
  vertexDescription : Nat
  vertShader : String
  fragShader : String
  deriving DecidableEq

/-- One `VkWriteDescriptorSet` of `updateStaticDescriptors`, with the
`VkDescriptorBufferInfo` it points to inlined (`buffer`, `offset`, `range`). -/
structure VkWriteDescriptorSet where
  sType : VkConst
  dstArrayElement : Nat
  dstSet : Nat
  dstBinding : Nat
  descriptorCount : Nat
  descriptorType : VkConst
  buffer : Nat
  offset : Nat
  range : Nat
  deriving DecidableEq

/-- A float literal of the source, kept as it is written there. -/
abbrev FloatLit := String

/-- A `VkClearValue` as render.c brace-initialises it: the list of initialisers. -/
structure VkClearValue where
  inits : List FloatLit
  deriving DecidableEq

/-- The `VkRenderPassBeginInfo` of `r_UpdateRenderCommands`; `renderArea` is an offset
(x, y) and an extent (width, height). -/
structure VkRenderPassBeginInfo where
  sType : VkConst
  clearValueCount : Nat
  pClearValues : List VkClearValue
  renderAreaOffset : Int × Int
  renderAreaExtent : Nat × Nat
  renderPass : Nat
  framebuffer : Nat
  deriving DecidableEq

/-- The `VkImageSubresourceLayers` of the read-back copy. -/
structure VkImageSubresourceLayers where
  aspectMask : VkConst
  baseArrayLayer : Nat
  layerCount : Nat
  mipLevel : Nat
  deriving DecidableEq

/-- The `VkOffset3D` of the read-back copy. -/
structure VkOffset3D where
  x : Int
  y : Int
  z : Int
  deriving DecidableEq

/-- The `VkBufferImageCopy` of the read-back copy. -/
structure VkBufferImageCopy where
  imageOffset : VkOffset3D
  imageExtent : VkExtent3D
  imageSubresource : VkImageSubresourceLayers
  bufferOffset : Nat
  bufferImageHeight : Nat
  bufferRowLength : Nat
  deriving DecidableEq

/-- A call into Vulkan or into the tanto library, with the arguments render.c passes.
Null pointer arguments (allocators, absent arrays) are left out. -/
inductive Call where
  | tanto_r_InitDescriptorSets (sets : List Tanto_R_DescriptorSet) (count : Nat)
  | tanto_r_InitPipelineLayouts (layouts : List Tanto_R_PipelineLayout) (count : Nat)
  | tanto_v_RequestBufferRegion (size : Nat) (usage : VkConst) (memType : VkConst)
  | vkUpdateDescriptorSets (device : Nat) (writeCount : Nat)
      (writes : List VkWriteDescriptorSet) (copyCount : Nat)
  | tanto_v_CreateImage (width height : Nat) (format : VkFormat) (usage : List VkConst)
      (aspect : VkConst) (samples : VkConst)
  | tanto_r_CreateRenderPass (info : Tanto_R_RenderPassInfo)
  | vkCreateFramebuffer (device : Nat) (info : VkFramebufferCreateInfo)
  | tanto_r_CreatePipeline (info : Tanto_R_PipelineInfo)
  | tanto_v_RequestCommandPool (queue : VkConst)
  | vkResetCommandPool (device : Nat) (pool : Nat) (flags : Nat)
  | vkBeginCommandBuffer (cmdBuf : Nat) (sType : VkConst)
  | vkCmdBindPipeline (cmdBuf : Nat) (bindPoint : VkConst) (pipeline : Nat)
  | vkCmdBindDescriptorSets (cmdBuf : Nat) (bindPoint : VkConst) (layout : Nat)
      (firstSet : Nat) (setCount : Nat) (sets : List Nat) (dynamicOffsetCount : Nat)
  | vkCmdBeginRenderPass (cmdBuf : Nat) (info : VkRenderPassBeginInfo) (contents : VkConst)
  | vkCmdBindVertexBuffers (cmdBuf : Nat) (firstBinding : Nat) (bindingCount : Nat)
      (buffers : List Nat) (offsets : List Nat)
  | vkCmdBindIndexBuffer (cmdBuf : Nat) (buffer : Nat) (offset : Nat) (indexType : VkConst)
  | vkCmdDrawIndexed (cmdBuf : Nat) (indexCount : Nat) (instanceCount : Nat)
      (firstIndex : Nat) (vertexOffset : Int) (firstInstance : Nat)
  | vkCmdEndRenderPass (cmdBuf : Nat)
  | vkCmdCopyImageToBuffer (cmdBuf : Nat) (srcImage : Nat) (srcLayout : VkConst)
      (dstBuffer : Nat) (regionCount : Nat) (regions : List VkBufferImageCopy)
  | vkEndCommandBuffer (cmdBuf : Nat)
  | tanto_v_SubmitAndWait (pool : Tanto_V_CommandPool) (queueIndex : Nat)
  | vkDeviceWaitIdle (device : Nat)
  | vkDestroyFramebuffer (device : Nat) (framebuffer : Nat)
  | tanto_v_FreeImage (image : Tanto_V_Image)
  | vkDestroyPipeline (device : Nat) (pipeline : Nat)
  deriving DecidableEq

/-- A line group written to standard output by `printMaterials`: the text
`Material i: ` followed by `printVec4` of the colour of the material printed. -/
structure Diag (Material : Type) where
  index : Nat
  material : Material

/-! ## The state of the module -/

/-- The anonymous record `scene` of render.c.  `primCount` is a `uint16_t`.  `camera`,
`transforms` and `materials` are pointers into mapped buffers in the source; they are
represented by the memory they point to, as bound by `r_InitScene`: one camera record and
two tables of `MAX_PRIM_COUNT` entries (the sizes requested for the buffers). -/
structure Scene (Material Mat4 : Type) where
  primCount : Nat
  camera : CameraUBO Mat4
  primitive : Fin MAX_PRIM_COUNT → Tanto_R_Primitive
  transforms : Fin MAX_PRIM_COUNT → Mat4
  materials : Fin MAX_PRIM_COUNT → Material

/-- The module-level variables of render.c, the globals of the tanto library it reads or
writes (`device`, `descriptorSets`, `pipelineLayouts`, the window size), the log of native
calls issued so far (oldest first) and the text written to standard output. -/
structure Renderer (Material Mat4 : Type) where
  scene : Scene Material Mat4
  attachmentColor : Tanto_V_Image
  attachmentDepth : Tanto_V_Image
  renderpass : Nat
  framebuffer : Nat
  pipelineMain : Nat
  cmdPoolRender : Tanto_V_CommandPool
  cmdPoolTransfer : Tanto_V_CommandPool
  cameraBuffer : Tanto_V_BufferRegion
  transformBuffer : Tanto_V_BufferRegion
  materialBuffer : Tanto_V_BufferRegion
  TANTO_WINDOW_WIDTH : Nat
  TANTO_WINDOW_HEIGHT : Nat
  device : Nat
  descriptorSets : Nat → Nat
  pipelineLayouts : Nat → Nat
  calls : List Call
  stdout : List (Diag Material)

/-- What lies outside render.c: the matrix inverse of the math library, the sizes of the
two parameter types, and the answers of the native calls that return something.  Each
answer may depend on the number of native calls issued before it and on the arguments.
`hostCamera`, `hostMaterials` and `hostTransforms` give the contents found in mapped
memory at an address when `r_InitScene` binds the scene to it; `tanto_v_FreeImage` gives
what the library leaves in the image record it is handed. -/
structure Env (Material Mat4 : Type) where
  m_Invert4x4 : Mat4 → Mat4
  sizeofMat4 : Nat
  sizeofMaterial : Nat
  tanto_r_GetVertexDescription3D_2Vec3 : Nat
  tanto_r_InitDescriptorSets : Nat → List Tanto_R_DescriptorSet → Nat → (Nat → Nat)
  tanto_r_InitPipelineLayouts : Nat → List Tanto_R_PipelineLayout → Nat → (Nat → Nat)
  tanto_v_RequestBufferRegion : Nat → Nat → VkConst → VkConst → Tanto_V_BufferRegion
  tanto_v_CreateImage :
    Nat → Nat → Nat → VkFormat → List VkConst → VkConst → VkConst → Tanto_V_Image
  tanto_r_CreateRenderPass : Nat → Tanto_R_RenderPassInfo → Nat
  vkCreateFramebuffer : Nat → VkFramebufferCreateInfo → Int × Nat
  tanto_r_CreatePipeline : Nat → Tanto_R_PipelineInfo → Nat
  tanto_v_FreeImage : Nat → Tanto_V_Image → Tanto_V_Image
  tanto_v_RequestCommandPool : Nat → VkConst → Tanto_V_CommandPool
  vkBeginCommandBuffer : Nat → Nat → Int
  vkEndCommandBuffer : Nat → Nat → Int
  hostCamera : Nat → CameraUBO Mat4
  hostMaterials : Nat → Fin MAX_PRIM_COUNT → Material
  hostTransforms : Nat → Fin MAX_PRIM_COUNT → Mat4

/-- How a run of a function ends: it returns a value, or an assertion fails and the
process is aborted, or a table is accessed outside its bounds.  Each case carries the
state at that point. -/
inductive Outcome (σ α : Type) where
  | returned (val : α) (st : σ)
  | assertFailed (st : σ)
  | outOfBounds (st : σ)

/-- The state at the end of a run, however it ended. -/
def Outcome.state {σ α : Type} : Outcome σ α → σ
  | .returned _ st => st
  | .assertFailed st => st
  | .outOfBounds st => st

/-- Whether the run returned normally. -/
def Outcome.isReturned {σ α : Type} : Outcome σ α → Bool
  | .returned _ _ => true
  | _ => false

/-- Sequencing: the rest of the function body runs only when the first part returned. -/
def Outcome.andThen {σ α β : Type} (o : Outcome σ α) (f : α → σ → Outcome σ β) :
    Outcome σ β :=
  match o with
  | .returned v st => f v st
  | .assertFailed st => .assertFailed st
  | .outOfBounds st => .outOfBounds st

/-- Modelled from the spec: the macro `V_ASSERT` comes from the tanto library, outside
these sources: "any native API call failing during recording is fatal (abort)".  It passes
exactly when the result is `VK_SUCCESS`. -/
def V_ASSERT {σ : Type} (result : Int) (st : σ) : Outcome σ Unit :=
  if result = VK_SUCCESS then .returned () st else .assertFailed st

/-- Reading entry `i` of a table of `MAX_PRIM_COUNT` entries, `none` when `i` is outside. -/
def readSlot {α : Type} (table : Fin MAX_PRIM_COUNT → α) (i : Nat) : Option α :=
  if h : i < MAX_PRIM_COUNT then some (table ⟨i, h⟩) else none

/-- Writing entry `i` of a table of `MAX_PRIM_COUNT` entries, `none` when `i` is outside. -/
def writeSlot {α : Type} (table : Fin MAX_PRIM_COUNT → α) (i : Nat) (v : α) :
    Option (Fin MAX_PRIM_COUNT → α) :=
  if h : i < MAX_PRIM_COUNT then some (Function.update table ⟨i, h⟩ v) else none

section Operations

variable {Material Mat4 : Type}

/-- Appending one native call to the log. -/
def emit (c : Call) (s : Renderer Material Mat4) : Renderer Material Mat4 :=
  { s with calls := s.calls ++ [c] }

/-- The function `initAttachments`: the colour image, then the depth image, both at the
current window size. -/
def initAttachments (E : Env Material Mat4) (s : Renderer Material Mat4) :
    Renderer Material Mat4 :=
  let color := E.tanto_v_CreateImage s.calls.length
    s.TANTO_WINDOW_WIDTH s.TANTO_WINDOW_HEIGHT VkFormat.VK_FORMAT_R8G8B8A8_UNORM
    [VkConst.VK_IMAGE_USAGE_COLOR_ATTACHMENT_BIT, VkConst.VK_IMAGE_USAGE_TRANSFER_SRC_BIT]
    VkConst.VK_IMAGE_ASPECT_COLOR_BIT VkConst.VK_SAMPLE_COUNT_1_BIT
  let s1 := { emit (Call.tanto_v_CreateImage
    s.TANTO_WINDOW_WIDTH s.TANTO_WINDOW_HEIGHT VkFormat.VK_FORMAT_R8G8B8A8_UNORM
    [VkConst.VK_IMAGE_USAGE_COLOR_ATTACHMENT_BIT, VkConst.VK_IMAGE_USAGE_TRANSFER_SRC_BIT]
    VkConst.VK_IMAGE_ASPECT_COLOR_BIT VkConst.VK_SAMPLE_COUNT_1_BIT) s with
    attachmentColor := color }
  let depth := E.tanto_v_CreateImage s1.calls.length
    s1.TANTO_WINDOW_WIDTH s1.TANTO_WINDOW_HEIGHT VkFormat.VK_FORMAT_D32_SFLOAT
    [VkConst.VK_IMAGE_USAGE_DEPTH_STENCIL_ATTACHMENT_BIT, VkConst.VK_IMAGE_USAGE_SAMPLED_BIT]
    VkConst.VK_IMAGE_ASPECT_DEPTH_BIT VkConst.VK_SAMPLE_COUNT_1_BIT
  { emit (Call.tanto_v_CreateImage
    s1.TANTO_WINDOW_WIDTH s1.TANTO_WINDOW_HEIGHT VkFormat.VK_FORMAT_D32_SFLOAT
    [VkConst.VK_IMAGE_USAGE_DEPTH_STENCIL_ATTACHMENT_BIT, VkConst.VK_IMAGE_USAGE_SAMPLED_BIT]
    VkConst.VK_IMAGE_ASPECT_DEPTH_BIT VkConst.VK_SAMPLE_COUNT_1_BIT) s1 with
    attachmentDepth := depth }

/-- The render-pass description built by `initRenderPass`. -/
def renderPassInfo : Tanto_R_RenderPassInfo where
  attachmentCount := 2
  pAttachments := [
    { flags := 0
      format := VkFormat.VK_FORMAT_R8G8B8A8_UNORM
      samples := VkConst.VK_SAMPLE_COUNT_1_BIT
      loadOp := VkConst.VK_ATTACHMENT_LOAD_OP_CLEAR
      storeOp := VkConst.VK_ATTACHMENT_STORE_OP_STORE
      stencilLoadOp := VkConst.VK_ATTACHMENT_LOAD_OP_DONT_CARE
      stencilStoreOp := VkConst.VK_ATTACHMENT_STORE_OP_DONT_CARE
      initialLayout := VkConst.VK_IMAGE_LAYOUT_UNDEFINED
      finalLayout := VkConst.VK_IMAGE_LAYOUT_TRANSFER_SRC_OPTIMAL },
    { flags := 0
      format := VkFormat.VK_FORMAT_D32_SFLOAT
      samples := VkConst.VK_SAMPLE_COUNT_1_BIT
      loadOp := VkConst.VK_ATTACHMENT_LOAD_OP_CLEAR
      storeOp := VkConst.VK_ATTACHMENT_STORE_OP_STORE
      stencilLoadOp := VkConst.VK_ATTACHMENT_LOAD_OP_DONT_CARE
      stencilStoreOp := VkConst.VK_ATTACHMENT_STORE_OP_STORE
      initialLayout := VkConst.VK_IMAGE_LAYOUT_UNDEFINED
      finalLayout := VkConst.VK_IMAGE_LAYOUT_DEPTH_STENCIL_ATTACHMENT_OPTIMAL }]
  subpassCount := 1
  pSubpasses := [
    { flags := 0
      pipelineBindPoint := VkConst.VK_PIPELINE_BIND_POINT_GRAPHICS
      inputAttachmentCount := 0
      colorAttachmentCount := 1
      pColorAttachments :=
        [{ attachment := 0, layout := VkConst.VK_IMAGE_LAYOUT_COLOR_ATTACHMENT_OPTIMAL }]
      pDepthStencilAttachment :=
        some { attachment := 1
               layout := VkConst.VK_IMAGE_LAYOUT_DEPTH_STENCIL_ATTACHMENT_OPTIMAL }
      preserveAttachmentCount := 0 }]

/-- The function `initRenderPass`. -/
def initRenderPass (E : Env Material Mat4) (s : Renderer Material Mat4) :
    Renderer Material Mat4 :=
  { emit (Call.tanto_r_CreateRenderPass renderPassInfo) s with
    renderpass := E.tanto_r_CreateRenderPass s.calls.length renderPassInfo }

/-- The `VkFramebufferCreateInfo` that `initFramebuffer` fills from the current state. -/
def framebufferInfo (s : Renderer Material Mat4) : VkFramebufferCreateInfo where
  sType := VkConst.VK_STRUCTURE_TYPE_FRAMEBUFFER_CREATE_INFO
  flags := 0
  renderPass := s.renderpass
  attachmentCount := 2
  pAttachments := [s.attachmentColor.view, s.attachmentDepth.view]
  width := s.TANTO_WINDOW_WIDTH
  height := s.TANTO_WINDOW_HEIGHT
  layers := 1

/-- The function `initFramebuffer`: the creation is wrapped in `V_ASSERT`. -/
def initFramebuffer (E : Env Material Mat4) (s : Renderer Material Mat4) :
    Outcome (Renderer Material Mat4) Unit :=
  let r := E.vkCreateFramebuffer s.calls.length (framebufferInfo s)
  V_ASSERT r.1
    { emit (Call.vkCreateFramebuffer s.device (framebufferInfo s)) s with framebuffer := r.2 }

/-- The descriptor-set descriptions of `initDescriptorSetsAndPipelineLayouts`. -/
def descriptorSetInfos : List Tanto_R_DescriptorSet := [
  { id := R_DESC_SET_MAIN
    bindingCount := 3
    bindings := [
      { descriptorCount := 1
        type := VkConst.VK_DESCRIPTOR_TYPE_UNIFORM_BUFFER
        stageFlags :=
          [VkConst.VK_SHADER_STAGE_VERTEX_BIT, VkConst.VK_SHADER_STAGE_FRAGMENT_BIT] },
      { descriptorCount := 1
        type := VkConst.VK_DESCRIPTOR_TYPE_UNIFORM_BUFFER
        stageFlags := [VkConst.VK_SHADER_STAGE_VERTEX_BIT] },
      { descriptorCount := 1
        type := VkConst.VK_DESCRIPTOR_TYPE_UNIFORM_BUFFER
        stageFlags :=
          [VkConst.VK_SHADER_STAGE_FRAGMENT_BIT, VkConst.VK_SHADER_STAGE_VERTEX_BIT] }] }]

/-- The pipeline-layout descriptions of `initDescriptorSetsAndPipelineLayouts`. -/
def pipelayoutInfos : List Tanto_R_PipelineLayout := [
  { id := R_PIPE_LAYOUT_MAIN
    descriptorSetCount := 1
    descriptorSetIds := [R_DESC_SET_MAIN]
    pushConstantCount := 0 }]

/-- The function `initDescriptorSetsAndPipelineLayouts`; the two library calls fill the
library's own `descriptorSets` and `pipelineLayouts` tables. -/
def initDescriptorSetsAndPipelineLayouts (E : Env Material Mat4)
    (s : Renderer Material Mat4) : Renderer Material Mat4 :=
  let s1 := { emit (Call.tanto_r_InitDescriptorSets descriptorSetInfos 1) s with
    descriptorSets := E.tanto_r_InitDescriptorSets s.calls.length descriptorSetInfos 1 }
  { emit (Call.tanto_r_InitPipelineLayouts pipelayoutInfos 1) s1 with
    pipelineLayouts := E.tanto_r_InitPipelineLayouts s1.calls.length pipelayoutInfos 1 }

/-- The pipeline description that `initPipelines` fills from the current state. -/
def pipelineInfo (E : Env Material Mat4) (s : Renderer Material Mat4) :
    Tanto_R_PipelineInfo where
  type := VkConst.TANTO_R_PIPELINE_RASTER_TYPE
  layoutId := R_PIPE_LAYOUT_MAIN
  renderPass := s.renderpass
  sampleCount := VkConst.VK_SAMPLE_COUNT_1_BIT
  frontFace := VkConst.VK_FRONT_FACE_COUNTER_CLOCKWISE
  cullMode := VkConst.VK_CULL_MODE_FRONT_BIT
  polygonMode := VkConst.VK_POLYGON_MODE_FILL
  vertexDescription := E.tanto_r_GetVertexDescription3D_2Vec3
  vertShader := SPVDIR ++ "/flat-vert.spv"
  fragShader := SPVDIR ++ "/flat-frag.spv"

/-- The function `initPipelines`. -/
def initPipelines (E : Env Material Mat4) (s : Renderer Material Mat4) :
    Renderer Material Mat4 :=
  { emit (Call.tanto_r_CreatePipeline (pipelineInfo E s)) s with
    pipelineMain := E.tanto_r_CreatePipeline s.calls.length (pipelineInfo E s) }

/-- One buffer request of `updateStaticDescriptors`: the call is logged and its answer
returned. -/
def requestUniformBuffer (E : Env Material Mat4) (size : Nat) (s : Renderer Material Mat4) :
    Tanto_V_BufferRegion × Renderer Material Mat4 :=
  (E.tanto_v_RequestBufferRegion s.calls.length size
      VkConst.VK_BUFFER_USAGE_UNIFORM_BUFFER_BIT VkConst.TANTO_V_MEMORY_HOST_GRAPHICS_TYPE,
   emit (Call.tanto_v_RequestBufferRegion size
      VkConst.VK_BUFFER_USAGE_UNIFORM_BUFFER_BIT VkConst.TANTO_V_MEMORY_HOST_GRAPHICS_TYPE) s)

/-- One entry of the `writes` array of `updateStaticDescriptors`. -/
def writeUniform (dstSet dstBinding : Nat) (r : Tanto_V_BufferRegion) :
    VkWriteDescriptorSet where
  sType := VkConst.VK_STRUCTURE_TYPE_WRITE_DESCRIPTOR_SET
  dstArrayElement := 0
  dstSet := dstSet
  dstBinding := dstBinding
  descriptorCount := 1
  descriptorType := VkConst.VK_DESCRIPTOR_TYPE_UNIFORM_BUFFER
  buffer := r.buffer
  offset := r.offset
  range := r.size

/-- The function `updateStaticDescriptors`: the camera, material and transform buffers are
requested in that order (`sizeof(CameraUBO)` is four matrices, the other two are
`MAX_PRIM_COUNT` entries each), then bound at bindings 0, 1 (transforms) and 2
(materials). -/
def updateStaticDescriptors (E : Env Material Mat4) (s : Renderer Material Mat4) :
    Renderer Material Mat4 :=
  let c := requestUniformBuffer E (4 * E.sizeofMat4) s
  let s1 := { c.2 with cameraBuffer := c.1 }
  let m := requestUniformBuffer E (MAX_PRIM_COUNT * E.sizeofMaterial) s1
  let s2 := { m.2 with materialBuffer := m.1 }
  let t := requestUniformBuffer E (MAX_PRIM_COUNT * E.sizeofMat4) s2
  let s3 := { t.2 with transformBuffer := t.1 }
  emit (Call.vkUpdateDescriptorSets s3.device 3
    [writeUniform (s3.descriptorSets R_DESC_SET_MAIN) 0 s3.cameraBuffer,
     writeUniform (s3.descriptorSets R_DESC_SET_MAIN) 1 s3.transformBuffer,
     writeUniform (s3.descriptorSets R_DESC_SET_MAIN) 2 s3.materialBuffer] 0) s3

/-- The function `updateDynamicDescriptors`, whose body is empty. -/
def updateDynamicDescriptors (s : Renderer Material Mat4) : Renderer Material Mat4 := s

/-- Modelled from the spec: `Tanto_PrimId` is declared in tanto/t_def.h, outside these
sources: "an integer index into the Registry".  The `uint16_t` count converts to it
without change of value (every id a run returns is below `MAX_PRIM_COUNT`). -/
abbrev Tanto_PrimId := Nat

/-- The body of the loop of `mainRender` for index `i`, on the primitive read. -/
def drawPrim (cmdBuf : Nat) (prim : Tanto_R_Primitive) (s : Renderer Material Mat4) :
    Renderer Material Mat4 :=
  let s1 := emit (Call.vkCmdBindVertexBuffers cmdBuf 0 2
    [prim.vertexRegion.buffer, prim.vertexRegion.buffer]
    [(prim.attrOffsets 0 + prim.vertexRegion.offset) % 2 ^ 64,
     (prim.attrOffsets 1 + prim.vertexRegion.offset) % 2 ^ 64]) s
  let s2 := emit (Call.vkCmdBindIndexBuffer cmdBuf prim.indexRegion.buffer
    prim.indexRegion.offset VkConst.TANTO_VERT_INDEX_TYPE) s1
  emit (Call.vkCmdDrawIndexed cmdBuf prim.indexCount 1 0 0 0) s2

/-- The loop `for (int i = 0; i < scene.primCount; i++)` of `mainRender`, over the indices
still to visit.  The body does not change `primCount`, so the indices visited are those
of `List.range scene.primCount`.  Reading `scene.primitive[i]` outside the table ends the
run. -/
def mainRenderLoop (cmdBuf : Nat) : List Nat → Renderer Material Mat4 →
    Outcome (Renderer Material Mat4) Unit
  | [], s => .returned () s
  | i :: rest, s =>
    match readSlot s.scene.primitive i with
    | none => .outOfBounds s
    | some prim => mainRenderLoop cmdBuf rest (drawPrim cmdBuf prim s)

/-- The function `mainRender`. -/
def mainRender (cmdBuf : Nat) (rpassInfo : VkRenderPassBeginInfo)
    (s : Renderer Material Mat4) : Outcome (Renderer Material Mat4) Unit :=
  let s1 := emit (Call.vkCmdBindPipeline cmdBuf VkConst.VK_PIPELINE_BIND_POINT_GRAPHICS
    s.pipelineMain) s
  let s2 := emit (Call.vkCmdBindDescriptorSets cmdBuf VkConst.VK_PIPELINE_BIND_POINT_GRAPHICS
    (s1.pipelineLayouts R_PIPE_LAYOUT_MAIN) 0 1 [s1.descriptorSets R_DESC_SET_MAIN] 0) s1
  let s3 := emit (Call.vkCmdBeginRenderPass cmdBuf rpassInfo
    VkConst.VK_SUBPASS_CONTENTS_INLINE) s2
  (mainRenderLoop cmdBuf (List.range s3.scene.primCount) s3).andThen fun _ s4 =>
    .returned () (emit (Call.vkCmdEndRenderPass cmdBuf) s4)

/-- The loop of `printMaterials`, over the indices still to visit; reading
`scene.materials[i]` outside the table ends the run. -/
def printMaterialsLoop : List Nat → Renderer Material Mat4 →
    Outcome (Renderer Material Mat4) Unit
  | [], s => .returned () s
  | i :: rest, s =>
    match readSlot s.scene.materials i with
    | none => .outOfBounds s
    | some m => printMaterialsLoop rest { s with stdout := s.stdout ++ [⟨i, m⟩] }

/-- The function `printMaterials`. -/
def printMaterials (s : Renderer Material Mat4) : Outcome (Renderer Material Mat4) Unit :=
  printMaterialsLoop (List.range s.scene.primCount) s

/-- The function `r_InitScene`: the descriptor set and pipeline layout are set up, the
three buffers requested and bound, the scene pointed at their mapped memory, and
`primCount` set to 0.  The `primitive` table is not touched. -/
def r_InitScene (E : Env Material Mat4) (s : Renderer Material Mat4) :
    Renderer Material Mat4 :=
  let s1 := initDescriptorSetsAndPipelineLayouts E s
  let s2 := updateStaticDescriptors E s1
  { s2 with scene :=
    { camera := E.hostCamera s2.cameraBuffer.hostData
      materials := E.hostMaterials s2.materialBuffer.hostData
      transforms := E.hostTransforms s2.transformBuffer.hostData
      primCount := 0
      primitive := s2.scene.primitive } }

/-- The function `r_InitRenderer`. -/
def r_InitRenderer (E : Env Material Mat4) (s : Renderer Material Mat4) :
    Outcome (Renderer Material Mat4) Unit :=
  let s1 := initAttachments E s
  let s2 := initRenderPass E s1
  (initFramebuffer E s2).andThen fun _ s3 =>
    let s4 := initPipelines E s3
    .returned ()
      { emit (Call.tanto_v_RequestCommandPool VkConst.TANTO_V_QUEUE_GRAPHICS_TYPE) s4 with
        cmdPoolRender :=
          E.tanto_v_RequestCommandPool s4.calls.length VkConst.TANTO_V_QUEUE_GRAPHICS_TYPE }

/-- The two clear values of `r_UpdateRenderCommands`, colour then depth. -/
def clears : List VkClearValue :=
  [⟨["0.002f", "0.023f", "0.009f", "1.0f"]⟩, ⟨["1.0", "0"]⟩]

/-- The `rpassInfo` that `r_UpdateRenderCommands` fills from the current state. -/
def rpassInfo (s : Renderer Material Mat4) : VkRenderPassBeginInfo where
  sType := VkConst.VK_STRUCTURE_TYPE_RENDER_PASS_BEGIN_INFO
  clearValueCount := 2
  pClearValues := clears
  renderAreaOffset := (0, 0)
  renderAreaExtent := (s.TANTO_WINDOW_WIDTH, s.TANTO_WINDOW_HEIGHT)
  renderPass := s.renderpass
  framebuffer := s.framebuffer

/-- The `imgCopy` that `r_UpdateRenderCommands` fills from the current state and the
caller's buffer region. -/
def imgCopy (colorBuffer : Tanto_V_BufferRegion) (s : Renderer Material Mat4) :
    VkBufferImageCopy where
  imageOffset := { x := 0, y := 0, z := 0 }
  imageExtent := s.attachmentColor.extent
  imageSubresource :=
    { aspectMask := VkConst.VK_IMAGE_ASPECT_COLOR_BIT
      baseArrayLayer := 0
      layerCount := 1
      mipLevel := 0 }
  bufferOffset := colorBuffer.offset
  bufferImageHeight := 0
  bufferRowLength := 0

/-- The function `r_UpdateRenderCommands`; `colorBuffer` is the region its argument points
to. -/
def r_UpdateRenderCommands (E : Env Material Mat4) (colorBuffer : Tanto_V_BufferRegion)
    (s : Renderer Material Mat4) : Outcome (Renderer Material Mat4) Unit :=
  let s1 := emit (Call.vkResetCommandPool s.device s.cmdPoolRender.handle 0) s
  let s2 := emit (Call.vkBeginCommandBuffer s1.cmdPoolRender.buffer
    VkConst.VK_STRUCTURE_TYPE_COMMAND_BUFFER_BEGIN_INFO) s1
  (V_ASSERT (E.vkBeginCommandBuffer s1.calls.length s1.cmdPoolRender.buffer) s2).andThen
    fun _ s3 =>
  (mainRender s3.cmdPoolRender.buffer (rpassInfo s3) s3).andThen fun _ s4 =>
  let s5 := emit (Call.vkCmdCopyImageToBuffer s4.cmdPoolRender.buffer
    s4.attachmentColor.handle VkConst.VK_IMAGE_LAYOUT_TRANSFER_SRC_OPTIMAL
    colorBuffer.buffer 1 [imgCopy colorBuffer s4]) s4
  let s6 := emit (Call.vkEndCommandBuffer s5.cmdPoolRender.buffer) s5
  (V_ASSERT (E.vkEndCommandBuffer s5.calls.length s5.cmdPoolRender.buffer) s6).andThen
    fun _ s7 =>
  printMaterials s7

/-- The function `r_Render`. -/
def r_Render (s : Renderer Material Mat4) : Renderer Material Mat4 :=
  emit (Call.tanto_v_SubmitAndWait s.cmdPoolRender 0) s

/-- The function `r_SetViewport`; the arguments are `unsigned int` values. -/
def r_SetViewport (width height : Nat) (s : Renderer Material Mat4) :
    Renderer Material Mat4 :=
  { s with TANTO_WINDOW_WIDTH := width, TANTO_WINDOW_HEIGHT := height }

/-- The function `r_CleanUp`: framebuffer, depth image, colour image, pipeline. -/
def r_CleanUp (E : Env Material Mat4) (s : Renderer Material Mat4) :
    Renderer Material Mat4 :=
  let s1 := emit (Call.vkDestroyFramebuffer s.device s.framebuffer) s
  let s2 := { emit (Call.tanto_v_FreeImage s1.attachmentDepth) s1 with
    attachmentDepth := E.tanto_v_FreeImage s1.calls.length s1.attachmentDepth }
  let s3 := { emit (Call.tanto_v_FreeImage s2.attachmentColor) s2 with
    attachmentColor := E.tanto_v_FreeImage s2.calls.length s2.attachmentColor }
  emit (Call.vkDestroyPipeline s3.device s3.pipelineMain) s3

/-- The function `r_UpdateViewport`. -/
def r_UpdateViewport (E : Env Material Mat4) (width height : Nat)
    (colorBuffer : Tanto_V_BufferRegion) (s : Renderer Material Mat4) :
    Outcome (Renderer Material Mat4) Unit :=
  let s1 := emit (Call.vkDeviceWaitIdle s.device) s
  let s2 := r_SetViewport width height s1
  let s3 := r_CleanUp E s2
  let s4 := initAttachments E s3
  let s5 := initPipelines E s4
  (initFramebuffer E s5).andThen fun _ s6 =>
  r_UpdateRenderCommands E colorBuffer s6

/-- The function `r_AddNewPrim`.  `scene.primCount++` wraps at 16 bits; the assertion is
evaluated on the incremented count, before the three stores. -/
def r_AddNewPrim (newPrim : Tanto_R_Primitive) (newMat : Material) (xform : Mat4)
    (s : Renderer Material Mat4) : Outcome (Renderer Material Mat4) Tanto_PrimId :=
  let primId : Tanto_PrimId := s.scene.primCount
  let s1 := { s with scene := { s.scene with primCount := (s.scene.primCount + 1) % 2 ^ 16 } }
  if s1.scene.primCount < MAX_PRIM_COUNT then
    match writeSlot s1.scene.primitive primId newPrim with
    | none => .outOfBounds s1
    | some prims =>
      let s2 := { s1 with scene := { s1.scene with primitive := prims } }
      match writeSlot s2.scene.materials primId newMat with
      | none => .outOfBounds s2
      | some mats =>
        let s3 := { s2 with scene := { s2.scene with materials := mats } }
        match writeSlot s3.scene.transforms primId xform with
        | none => .outOfBounds s3
        | some xforms =>
          .returned primId { s3 with scene := { s3.scene with transforms := xforms } }
  else .assertFailed s1

/-- The function `r_UpdatePrimitive`, whose body is `assert(0)`. -/
def r_UpdatePrimitive (_newPrim : Tanto_R_Primitive) (s : Renderer Material Mat4) :
    Outcome (Renderer Material Mat4) Unit :=
  if (0 : Int) ≠ 0 then .returned () s else .assertFailed s

/-- The function `r_UpdatePrimTransform`, whose body is `assert(0)`. -/
def r_UpdatePrimTransform (_m : Mat4) (s : Renderer Material Mat4) :
    Outcome (Renderer Material Mat4) Unit :=
  if (0 : Int) ≠ 0 then .returned () s else .assertFailed s

/-- The function `r_UpdateCamera`: four stores into the mapped camera record. -/
def r_UpdateCamera (E : Env Material Mat4) (camera : Tanto_Camera Mat4)
    (s : Renderer Material Mat4) : Renderer Material Mat4 :=
  let s1 := { s with scene := { s.scene with camera := { s.scene.camera with
    matView := camera.view } } }
  let s2 := { s1 with scene := { s1.scene with camera := { s1.scene.camera with
    matProj := camera.proj } } }
  let s3 := { s2 with scene := { s2.scene with camera := { s2.scene.camera with
    viewInv := E.m_Invert4x4 camera.view } } }
  { s3 with scene := { s3.scene with camera := { s3.scene.camera with
    projInv := E.m_Invert4x4 camera.proj } } }

/-- A sequence of registrations, one `r_AddNewPrim` per triple, in order; it collects the
ids returned and stops at the first call that does not return. -/
def addPrims : List (Tanto_R_Primitive × Material × Mat4) → Renderer Material Mat4 →
    Outcome (Renderer Material Mat4) (List Tanto_PrimId)
  | [], s => .returned [] s
  | (p, m, x) :: rest, s =>
    (r_AddNewPrim p m x s).andThen fun id s1 =>
      (addPrims rest s1).andThen fun ids s2 => .returned (id :: ids) s2

end Operations

/-! ## Vocabulary for stating the properties

The sequences of calls below are written out from the specification's description of a
frame and of a resize; the theorems compare them with what the functions above log. -/

section Properties

variable {Material Mat4 : Type}

/-- Appending a list of native calls to the log. -/
def emitAll (cs : List Call) (s : Renderer Material Mat4) : Renderer Material Mat4 :=
  { s with calls := s.calls ++ cs }

/-- The native calls issued by one invocation of `r_UpdateRenderCommands`: what it added
to the log, up to the point where it returned or was aborted. -/
def recorded (E : Env Material Mat4) (colorBuffer : Tanto_V_BufferRegion)
    (s : Renderer Material Mat4) : List Call :=
  (r_UpdateRenderCommands E colorBuffer s).state.calls.drop s.calls.length

/-- The first `k` entries of a table, in index order. -/
def firstEntries {α : Type} (table : Fin MAX_PRIM_COUNT → α) (k : Nat)
    (hk : k ≤ MAX_PRIM_COUNT) : List α :=
  (List.finRange k).map fun i => table (Fin.castLE hk i)

/-- The registered primitives `primitive[0], ..., primitive[primCount - 1]`. -/
def registered (s : Renderer Material Mat4) (hk : s.scene.primCount ≤ MAX_PRIM_COUNT) :
    List Tanto_R_Primitive :=
  firstEntries s.scene.primitive s.scene.primCount hk

/-- The triple of calls that draws one primitive: bind its two vertex-buffer bindings (the
same buffer, at its two attribute offsets), bind its index buffer, draw all its indices
once. -/
def primCalls (cmdBuf : Nat) (prim : Tanto_R_Primitive) : List Call :=
  [Call.vkCmdBindVertexBuffers cmdBuf 0 2
      [prim.vertexRegion.buffer, prim.vertexRegion.buffer]
      [(prim.attrOffsets 0 + prim.vertexRegion.offset) % 2 ^ 64,
       (prim.attrOffsets 1 + prim.vertexRegion.offset) % 2 ^ 64],
   Call.vkCmdBindIndexBuffer cmdBuf prim.indexRegion.buffer prim.indexRegion.offset
      VkConst.TANTO_VERT_INDEX_TYPE,
   Call.vkCmdDrawIndexed cmdBuf prim.indexCount 1 0 0 0]

/-- The calls of a frame before the render pass begins: reset the command pool, begin the
command buffer, bind the pipeline, bind the descriptor set. -/
def framePrologue (s : Renderer Material Mat4) : List Call :=
  [Call.vkResetCommandPool s.device s.cmdPoolRender.handle 0,
   Call.vkBeginCommandBuffer s.cmdPoolRender.buffer
      VkConst.VK_STRUCTURE_TYPE_COMMAND_BUFFER_BEGIN_INFO,
   Call.vkCmdBindPipeline s.cmdPoolRender.buffer VkConst.VK_PIPELINE_BIND_POINT_GRAPHICS
      s.pipelineMain,
   Call.vkCmdBindDescriptorSets s.cmdPoolRender.buffer VkConst.VK_PIPELINE_BIND_POINT_GRAPHICS
      (s.pipelineLayouts R_PIPE_LAYOUT_MAIN) 0 1 [s.descriptorSets R_DESC_SET_MAIN] 0]

/-- The begin-render-pass call of a frame, carrying the two clear values. -/
def frameBeginPass (s : Renderer Material Mat4) : Call :=
  Call.vkCmdBeginRenderPass s.cmdPoolRender.buffer
    { sType := VkConst.VK_STRUCTURE_TYPE_RENDER_PASS_BEGIN_INFO
      clearValueCount := 2
      pClearValues := [⟨["0.002f", "0.023f", "0.009f", "1.0f"]⟩, ⟨["1.0", "0"]⟩]
      renderAreaOffset := (0, 0)
      renderAreaExtent := (s.TANTO_WINDOW_WIDTH, s.TANTO_WINDOW_HEIGHT)
      renderPass := s.renderpass
      framebuffer := s.framebuffer }
    VkConst.VK_SUBPASS_CONTENTS_INLINE

/-- The end-render-pass call of a frame. -/
def frameEndPass (s : Renderer Material Mat4) : Call :=
  Call.vkCmdEndRenderPass s.cmdPoolRender.buffer

/-- The calls of a frame after the render pass has ended: one copy of the colour
attachment into the caller's buffer (one region, at the region's offset, row length and
image height 0, the full extent of the attachment), then end the command buffer. -/
def frameEpilogue (colorBuffer : Tanto_V_BufferRegion) (s : Renderer Material Mat4) :
    List Call :=
  [Call.vkCmdCopyImageToBuffer s.cmdPoolRender.buffer s.attachmentColor.handle
      VkConst.VK_IMAGE_LAYOUT_TRANSFER_SRC_OPTIMAL colorBuffer.buffer 1
      [{ imageOffset := { x := 0, y := 0, z := 0 }
         imageExtent := s.attachmentColor.extent
         imageSubresource :=
           { aspectMask := VkConst.VK_IMAGE_ASPECT_COLOR_BIT
             baseArrayLayer := 0
             layerCount := 1
             mipLevel := 0 }
         bufferOffset := colorBuffer.offset
         bufferImageHeight := 0
         bufferRowLength := 0 }],
   Call.vkEndCommandBuffer s.cmdPoolRender.buffer]

/-- The whole call sequence of a frame that draws the primitives `prims` in order. -/
def frameCalls (colorBuffer : Tanto_V_BufferRegion) (s : Renderer Material Mat4)
    (prims : List Tanto_R_Primitive) : List Call :=
  framePrologue s ++ [frameBeginPass s] ++ prims.flatMap (primCalls s.cmdPoolRender.buffer) ++
    [frameEndPass s] ++ frameEpilogue colorBuffer s

/-- Whether a call is an indexed draw. -/
def isDrawIndexed : Call → Bool
  | .vkCmdDrawIndexed _ _ _ _ _ _ => true
  | _ => false

/-- Whether a call is one of the three per-primitive calls (the two binds and the
draw). -/
def isPrimCall : Call → Bool
  | .vkCmdBindVertexBuffers _ _ _ _ _ => true
  | .vkCmdBindIndexBuffer _ _ _ _ => true
  | .vkCmdDrawIndexed _ _ _ _ _ _ => true
  | _ => false

/-- Whether a call begins a render pass. -/
def isBeginRenderPass : Call → Bool
  | .vkCmdBeginRenderPass _ _ _ => true
  | _ => false

/-- Whether a call ends a render pass. -/
def isEndRenderPass : Call → Bool
  | .vkCmdEndRenderPass _ => true
  | _ => false

/-- Whether a call copies an image into a buffer. -/
def isCopyImageToBuffer : Call → Bool
  | .vkCmdCopyImageToBuffer _ _ _ _ _ _ => true
  | _ => false

/-- The registry invariant of the data model: `0 ≤ primCount ≤ MAX_PRIM_COUNT`. -/
def registryInvariant (s : Renderer Material Mat4) : Prop :=
  0 ≤ s.scene.primCount ∧ s.scene.primCount ≤ MAX_PRIM_COUNT

/-- One operation of the public interface of render.c, applied to a state and returning
normally. -/
inductive Step (E : Env Material Mat4) : Renderer Material Mat4 → Renderer Material Mat4 → Prop
  | initScene (s : Renderer Material Mat4) : Step E s (r_InitScene E s)
  | initRenderer (s s1 : Renderer Material Mat4) :
      r_InitRenderer E s = .returned () s1 → Step E s s1
  | addNewPrim (p : Tanto_R_Primitive) (m : Material) (x : Mat4)
      (s s1 : Renderer Material Mat4) (id : Tanto_PrimId) :
      r_AddNewPrim p m x s = .returned id s1 → Step E s s1
  | updateCamera (camera : Tanto_Camera Mat4) (s : Renderer Material Mat4) :
      Step E s (r_UpdateCamera E camera s)
  | setViewport (width height : Nat) (s : Renderer Material Mat4) :
      Step E s (r_SetViewport width height s)
  | updateRenderCommands (colorBuffer : Tanto_V_BufferRegion)
      (s s1 : Renderer Material Mat4) :
      r_UpdateRenderCommands E colorBuffer s = .returned () s1 → Step E s s1
  | render (s : Renderer Material Mat4) : Step E s (r_Render s)
  | updateViewport (width height : Nat) (colorBuffer : Tanto_V_BufferRegion)
      (s s1 : Renderer Material Mat4) :
      r_UpdateViewport E width height colorBuffer s = .returned () s1 → Step E s s1
  | cleanUp (s : Renderer Material Mat4) : Step E s (r_CleanUp E s)
  | updatePrimitive (p : Tanto_R_Primitive) (s s1 : Renderer Material Mat4) :
      r_UpdatePrimitive p s = .returned () s1 → Step E s s1
  | updatePrimTransform (m : Mat4) (s s1 : Renderer Material Mat4) :
      r_UpdatePrimTransform m s = .returned () s1 → Step E s s1

/-- The states reachable from `r_InitScene`: the state it leaves, from any state before it,
and every state an operation returns from a reachable state. -/
inductive Reachable (E : Env Material Mat4) : Renderer Material Mat4 → Prop
  | init (s0 : Renderer Material Mat4) : Reachable E (r_InitScene E s0)
  | step (s s1 : Renderer Material Mat4) : Reachable E s → Step E s s1 → Reachable E s1

/-- The native calls issued by one invocation of `r_UpdateViewport`: what it added to the
log, up to the point where it returned or was aborted. -/
def resized (E : Env Material Mat4) (width height : Nat) (colorBuffer : Tanto_V_BufferRegion)
    (s : Renderer Material Mat4) : List Call :=
  (r_UpdateViewport E width height colorBuffer s).state.calls.drop s.calls.length

/-- The teardown of the size-dependent resources: destroy the framebuffer, free the depth
image, free the colour image, destroy the pipeline. -/
def teardownCalls (s : Renderer Material Mat4) : List Call :=
  [Call.vkDestroyFramebuffer s.device s.framebuffer,
   Call.tanto_v_FreeImage s.attachmentDepth,
   Call.tanto_v_FreeImage s.attachmentColor,
   Call.vkDestroyPipeline s.device s.pipelineMain]

/-- The colour image a resize creates: the sixth native call of the resize, at the new
size. -/
def resizeColor (E : Env Material Mat4) (width height : Nat) (s : Renderer Material Mat4) :
    Tanto_V_Image :=
  E.tanto_v_CreateImage (s.calls.length + 5) width height VkFormat.VK_FORMAT_R8G8B8A8_UNORM
    [VkConst.VK_IMAGE_USAGE_COLOR_ATTACHMENT_BIT, VkConst.VK_IMAGE_USAGE_TRANSFER_SRC_BIT]
    VkConst.VK_IMAGE_ASPECT_COLOR_BIT VkConst.VK_SAMPLE_COUNT_1_BIT

/-- The depth image a resize creates: the seventh native call of the resize, at the new
size. -/
def resizeDepth (E : Env Material Mat4) (width height : Nat) (s : Renderer Material Mat4) :
    Tanto_V_Image :=
  E.tanto_v_CreateImage (s.calls.length + 6) width height VkFormat.VK_FORMAT_D32_SFLOAT
    [VkConst.VK_IMAGE_USAGE_DEPTH_STENCIL_ATTACHMENT_BIT, VkConst.VK_IMAGE_USAGE_SAMPLED_BIT]
    VkConst.VK_IMAGE_ASPECT_DEPTH_BIT VkConst.VK_SAMPLE_COUNT_1_BIT

/-- The framebuffer description of a resize: the render pass from before the resize, the
views of the two new images, the new size. -/
def resizeFramebufferInfo (E : Env Material Mat4) (width height : Nat)
    (s : Renderer Material Mat4) : VkFramebufferCreateInfo where
  sType := VkConst.VK_STRUCTURE_TYPE_FRAMEBUFFER_CREATE_INFO
  flags := 0
  renderPass := s.renderpass
  attachmentCount := 2
  pAttachments := [(resizeColor E width height s).view, (resizeDepth E width height s).view]
  width := width
  height := height
  layers := 1

/-- The rebuild of the size-dependent resources: the colour and depth attachments at the
new size, then the pipeline against the render pass from before the resize, then the
framebuffer. -/
def rebuildCalls (E : Env Material Mat4) (width height : Nat) (s : Renderer Material Mat4) :
    List Call :=
  [Call.tanto_v_CreateImage width height VkFormat.VK_FORMAT_R8G8B8A8_UNORM
      [VkConst.VK_IMAGE_USAGE_COLOR_ATTACHMENT_BIT, VkConst.VK_IMAGE_USAGE_TRANSFER_SRC_BIT]
      VkConst.VK_IMAGE_ASPECT_COLOR_BIT VkConst.VK_SAMPLE_COUNT_1_BIT,
   Call.tanto_v_CreateImage width height VkFormat.VK_FORMAT_D32_SFLOAT
      [VkConst.VK_IMAGE_USAGE_DEPTH_STENCIL_ATTACHMENT_BIT, VkConst.VK_IMAGE_USAGE_SAMPLED_BIT]
      VkConst.VK_IMAGE_ASPECT_DEPTH_BIT VkConst.VK_SAMPLE_COUNT_1_BIT,
   Call.tanto_r_CreatePipeline (pipelineInfo E s),
   Call.vkCreateFramebuffer s.device (resizeFramebufferInfo E width height s)]

/-- The calls of a resize before the frame recorder is invoked again: wait for the device
to be idle, tear down, rebuild. -/
def resizeCalls (E : Env Material Mat4) (width height : Nat) (s : Renderer Material Mat4) :
    List Call :=
  [Call.vkDeviceWaitIdle s.device] ++ teardownCalls s ++ rebuildCalls E width height s

/-- The state in which a resize invokes the frame recorder again.  It differs from the
state before the resize in the stored size, the two images, the pipeline, the framebuffer
and the log; the scene, the render pass, the descriptor sets, the pipeline layouts, the
command pools and the buffers are those from before. -/
def resizeRebuilt (E : Env Material Mat4) (width height : Nat) (s : Renderer Material Mat4) :
    Renderer Material Mat4 :=
  { s with
    TANTO_WINDOW_WIDTH := width
    TANTO_WINDOW_HEIGHT := height
    attachmentColor := resizeColor E width height s
    attachmentDepth := resizeDepth E width height s
    pipelineMain := E.tanto_r_CreatePipeline (s.calls.length + 7) (pipelineInfo E s)
    framebuffer :=
      (E.vkCreateFramebuffer (s.calls.length + 8) (resizeFramebufferInfo E width height s)).2
    calls := s.calls ++ resizeCalls E width height s }

/-- Whether a call is one a frame recording issues: the reset, the begin and end of the
command buffer, and the commands recorded into it. -/
def isFrameCall : Call → Bool
  | .vkResetCommandPool _ _ _ => true
  | .vkBeginCommandBuffer _ _ => true
  | .vkCmdBindPipeline _ _ _ => true
  | .vkCmdBindDescriptorSets _ _ _ _ _ _ _ => true
  | .vkCmdBeginRenderPass _ _ _ => true
  | .vkCmdBindVertexBuffers _ _ _ _ _ => true
  | .vkCmdBindIndexBuffer _ _ _ _ => true
  | .vkCmdDrawIndexed _ _ _ _ _ _ => true
  | .vkCmdEndRenderPass _ => true
  | .vkCmdCopyImageToBuffer _ _ _ _ _ _ => true
  | .vkEndCommandBuffer _ => true
  | _ => false

/-- Whether a call destroys or frees a resource.  These three are the only such calls in
render.c; it has none for a descriptor set, a pipeline layout or a render pass. -/
def isDestroyCall : Call → Bool
  | .vkDestroyFramebuffer _ _ => true
  | .tanto_v_FreeImage _ => true
  | .vkDestroyPipeline _ _ => true
  | _ => false

/-- Whether a call creates or writes a descriptor set, a pipeline layout or a render
pass. -/
def isLayoutOrPassSetup : Call → Bool
  | .tanto_r_InitDescriptorSets _ _ => true
  | .tanto_r_InitPipelineLayouts _ _ => true
  | .vkUpdateDescriptorSets _ _ _ _ => true
  | .tanto_r_CreateRenderPass _ => true
  | _ => false

/-- A state with its log and its output emptied: what is left are the variables of the
module and of the library. -/
def withoutLog (s : Renderer Material Mat4) : Renderer Material Mat4 :=
  { s with calls := [], stdout := [] }

/-- The state `st` has the variables of `s`: the two differ at most in the log and the
output. -/
def sameVariables (s st : Renderer Material Mat4) : Prop :=
  withoutLog st = withoutLog s

/-- The log of `st` is the log of `s` followed by calls that all satisfy `p`. -/
def addsOnly (p : Call → Bool) (s st : Renderer Material Mat4) : Prop :=
  ∃ cs, st.calls = s.calls ++ cs ∧ ∀ c ∈ cs, p c = true

end Properties

/-! ## A concrete environment and state, for evaluating the definitions -/

/-- A primitive with the given index count, its regions at fixed handles. -/
def samplePrim (n : Nat) : Tanto_R_Primitive where
  vertexRegion := { buffer := 7, offset := 64, size := 1024, hostData := 0 }
  indexRegion := { buffer := 8, offset := 16, size := 512, hostData := 0 }
  attrOffsets := fun i => 96 * i.val
  indexCount := n

/-- An environment over natural-number matrices and materials in which every native
call succeeds. -/
def sampleEnv : Env Nat Nat where
  m_Invert4x4 := fun m => m + 1000
  sizeofMat4 := 64
  sizeofMaterial := 16
  tanto_r_GetVertexDescription3D_2Vec3 := 1
  tanto_r_InitDescriptorSets := fun _ _ _ _ => 21
  tanto_r_InitPipelineLayouts := fun _ _ _ _ => 22
  tanto_v_RequestBufferRegion := fun n size _ _ =>
    { buffer := 30 + n, offset := 0, size := size, hostData := 4096 * n }
  tanto_v_CreateImage := fun n w h _ _ _ _ =>
    { handle := 40 + n, view := 50 + n, extent := { width := w, height := h, depth := 1 } }
  tanto_r_CreateRenderPass := fun n _ => 60 + n
  vkCreateFramebuffer := fun n _ => (0, 70 + n)
  tanto_r_CreatePipeline := fun n _ => 80 + n
  tanto_v_FreeImage := fun _ img => img
  tanto_v_RequestCommandPool := fun n _ => { handle := 90 + n, buffer := 91 + n }
  vkBeginCommandBuffer := fun _ _ => 0
  vkEndCommandBuffer := fun _ _ => 0
  hostCamera := fun _ => { matView := 0, matProj := 0, viewInv := 0, projInv := 0 }
  hostMaterials := fun _ _ => 0
  hostTransforms := fun _ _ => 0

/-- A state as it is at program start: every variable zero, nothing logged. -/
def sampleStart : Renderer Nat Nat where
  scene :=
    { primCount := 0
      camera := { matView := 0, matProj := 0, viewInv := 0, projInv := 0 }
      primitive := fun _ => samplePrim 0
      transforms := fun _ => 0
      materials := fun _ => 0 }
  attachmentColor := { handle := 0, view := 0, extent := { width := 0, height := 0, depth := 0 } }
  attachmentDepth := { handle := 0, view := 0, extent := { width := 0, height := 0, depth := 0 } }
  renderpass := 0
  framebuffer := 0
  pipelineMain := 0
  cmdPoolRender := { handle := 0, buffer := 0 }
  cmdPoolTransfer := { handle := 0, buffer := 0 }
  cameraBuffer := { buffer := 0, offset := 0, size := 0, hostData := 0 }
  transformBuffer := { buffer := 0, offset := 0, size := 0, hostData := 0 }
  materialBuffer := { buffer := 0, offset := 0, size := 0, hostData := 0 }
  TANTO_WINDOW_WIDTH := 0
  TANTO_WINDOW_HEIGHT := 0
  device := 1
  descriptorSets := fun _ => 0
  pipelineLayouts := fun _ => 0
  calls := []
  stdout := []

/-- A state whose count stands at `MAX_PRIM_COUNT`, otherwise as `r_InitScene` leaves it. -/
def sampleFull : Renderer Nat Nat :=
  { r_InitScene sampleEnv sampleStart with scene :=
    { (r_InitScene sampleEnv sampleStart).scene with primCount := 100 } }

/-- The state reached from `r_InitScene` by 99 registrations, each of a primitive with 6
indices, material 12 and transform 102: the next registration is the one that reaches the
capacity. -/
def sampleNinetyNine : Renderer Nat Nat :=
  (addPrims (List.replicate 99 (samplePrim 6, 12, 102))
    (r_InitScene sampleEnv sampleStart)).state

/-- Three registrations, with index counts 3, 6 and 9. -/
def sampleArgs : List (Tanto_R_Primitive × Nat × Nat) :=
  [(samplePrim 3, 11, 101), (samplePrim 6, 12, 102), (samplePrim 9, 13, 103)]

end HdTanto

namespace HdTanto

section Registration

variable {Material Mat4 : Type}

/-- The state `r_AddNewPrim` leaves after a successful registration at slot `i`. -/
theorem r_AddNewPrim_of_lt (p : Tanto_R_Primitive) (m : Material) (x : Mat4)
    (s : Renderer Material Mat4) (h : s.scene.primCount + 1 < MAX_PRIM_COUNT) :
    r_AddNewPrim p m x s = .returned s.scene.primCount
      { s with scene :=
        { primCount := s.scene.primCount + 1
          camera := s.scene.camera
          primitive := Function.update s.scene.primitive
            ⟨s.scene.primCount, Nat.lt_of_succ_lt h⟩ p
          materials := Function.update s.scene.materials
            ⟨s.scene.primCount, Nat.lt_of_succ_lt h⟩ m
          transforms := Function.update s.scene.transforms
            ⟨s.scene.primCount, Nat.lt_of_succ_lt h⟩ x } } := by
  have h1 : (s.scene.primCount + 1) % 65536 = s.scene.primCount + 1 := by
    apply Nat.mod_eq_of_lt
    unfold MAX_PRIM_COUNT at h
    omega
  have h2 : s.scene.primCount < MAX_PRIM_COUNT := Nat.lt_of_succ_lt h
  simp [r_AddNewPrim, writeSlot, h1, h, h2]

/-- A registration below the bound returns the old count and raises the count by one. -/
theorem r_AddNewPrim_step (p : Tanto_R_Primitive) (m : Material) (x : Mat4)
    (s : Renderer Material Mat4) (h : s.scene.primCount + 1 < MAX_PRIM_COUNT) :
    ∃ st, r_AddNewPrim p m x s = .returned s.scene.primCount st ∧
      st.scene.primCount = s.scene.primCount + 1 :=
  ⟨_, r_AddNewPrim_of_lt p m x s h, rfl⟩

/-- When the incremented count is not below `MAX_PRIM_COUNT` the assertion fails, with only
`primCount` changed. -/
theorem r_AddNewPrim_of_not_lt (p : Tanto_R_Primitive) (m : Material) (x : Mat4)
    (s : Renderer Material Mat4)
    (h : ¬ (s.scene.primCount + 1) % 2 ^ 16 < MAX_PRIM_COUNT) :
    r_AddNewPrim p m x s = .assertFailed
      { s with scene := { s.scene with primCount := (s.scene.primCount + 1) % 2 ^ 16 } } := by
  have h1 : ¬ (s.scene.primCount + 1) % 65536 < MAX_PRIM_COUNT := by simpa using h
  simp [r_AddNewPrim, h1]

/-- A registration that returns started from a count whose successor is below
`MAX_PRIM_COUNT`. -/
theorem r_AddNewPrim_returned_lt (p : Tanto_R_Primitive) (m : Material) (x : Mat4)
    (s s1 : Renderer Material Mat4) (id : Tanto_PrimId)
    (h : r_AddNewPrim p m x s = .returned id s1) :
    s.scene.primCount + 1 < MAX_PRIM_COUNT := by
  by_cases hc : s.scene.primCount < MAX_PRIM_COUNT
  · by_cases ha : (s.scene.primCount + 1) % 2 ^ 16 < MAX_PRIM_COUNT
    · have h1 : (s.scene.primCount + 1) % 2 ^ 16 = s.scene.primCount + 1 := by
        apply Nat.mod_eq_of_lt
        unfold MAX_PRIM_COUNT at hc
        omega
      rw [h1] at ha
      exact ha
    · rw [r_AddNewPrim_of_not_lt p m x s ha] at h
      cases h
  · exfalso
    simp only [r_AddNewPrim, writeSlot, hc, dite_false] at h
    split at h <;> cases h

/-- Registrations that fit: from a count `c` with `c + n < MAX_PRIM_COUNT`, `n` calls
return `c, c+1, ..., c+n-1` and leave the count at `c + n`. -/
theorem addPrims_of_lt (args : List (Tanto_R_Primitive × Material × Mat4)) :
    ∀ s : Renderer Material Mat4, s.scene.primCount + args.length < MAX_PRIM_COUNT →
      ∃ s1, addPrims args s = .returned (List.range' s.scene.primCount args.length) s1 ∧
        s1.scene.primCount = s.scene.primCount + args.length := by
  induction args with
  | nil => intro s _; exact ⟨s, rfl, rfl⟩
  | cons a rest ih =>
    intro s h
    obtain ⟨p, m, x⟩ := a
    have h1 : s.scene.primCount + 1 < MAX_PRIM_COUNT := by
      simp only [List.length_cons] at h
      omega
    obtain ⟨st, hstep, hst⟩ := r_AddNewPrim_step p m x s h1
    have hfit : st.scene.primCount + rest.length < MAX_PRIM_COUNT := by
      simp only [List.length_cons] at h
      omega
    obtain ⟨s2, h2, h3⟩ := ih st hfit
    refine ⟨s2, ?_, ?_⟩
    · simp only [addPrims, hstep, Outcome.andThen, h2, List.length_cons, hst]
      rfl
    · rw [h3, hst]
      simp only [List.length_cons]
      omega

/-- A sequence of registrations that returns was either empty or fitted below
`MAX_PRIM_COUNT`. -/
theorem addPrims_returned_lt (args : List (Tanto_R_Primitive × Material × Mat4)) :
    ∀ (s s1 : Renderer Material Mat4) (ids : List Tanto_PrimId),
      addPrims args s = .returned ids s1 →
      args = [] ∨ s.scene.primCount + args.length < MAX_PRIM_COUNT := by
  induction args with
  | nil => intro s s1 ids _; exact Or.inl rfl
  | cons a rest ih =>
    intro s s1 ids h
    obtain ⟨p, m, x⟩ := a
    right
    simp only [addPrims] at h
    cases hr : r_AddNewPrim p m x s with
    | assertFailed st => rw [hr] at h; cases h
    | outOfBounds st => rw [hr] at h; cases h
    | returned id st =>
      have hlt := r_AddNewPrim_returned_lt p m x s st id hr
      have hst : st.scene.primCount = s.scene.primCount + 1 := by
        rw [r_AddNewPrim_of_lt p m x s hlt] at hr
        cases hr
        rfl
      rw [hr] at h
      simp only [Outcome.andThen] at h
      cases hrest : addPrims rest st with
      | assertFailed st2 => rw [hrest] at h; cases h
      | outOfBounds st2 => rw [hrest] at h; cases h
      | returned ids2 st2 =>
        rcases ih st st2 ids2 hrest with hnil | hfit
        · subst hnil
          simpa using hlt
        · rw [hst] at hfit
          simp only [List.length_cons]
          omega

/-- Registrations that reach `MAX_PRIM_COUNT`: from a count `c < MAX_PRIM_COUNT`, a
sequence of `MAX_PRIM_COUNT - c` calls ends in a failed assertion, with the count at
`MAX_PRIM_COUNT`. -/
theorem addPrims_reaching_max (args : List (Tanto_R_Primitive × Material × Mat4)) :
    ∀ s : Renderer Material Mat4, s.scene.primCount < MAX_PRIM_COUNT →
      s.scene.primCount + args.length = MAX_PRIM_COUNT →
      ∃ s1, addPrims args s = .assertFailed s1 ∧ s1.scene.primCount = MAX_PRIM_COUNT := by
  induction args with
  | nil =>
    intro s h1 h2
    simp only [List.length_nil, Nat.add_zero] at h2
    omega
  | cons a rest ih =>
    intro s h1 h2
    obtain ⟨p, m, x⟩ := a
    simp only [List.length_cons] at h2
    by_cases hlt : s.scene.primCount + 1 < MAX_PRIM_COUNT
    · obtain ⟨st, hstep, hst⟩ := r_AddNewPrim_step p m x s hlt
      obtain ⟨s2, h3, h4⟩ := ih st (by rw [hst]; exact hlt) (by rw [hst]; omega)
      exact ⟨s2, by simp only [addPrims, hstep, Outcome.andThen, h3], h4⟩
    · have hc : s.scene.primCount + 1 = MAX_PRIM_COUNT := by omega
      have hmod : (s.scene.primCount + 1) % 2 ^ 16 = MAX_PRIM_COUNT := by
        rw [hc]
        rfl
      have hstep := r_AddNewPrim_of_not_lt p m x s (by rw [hmod]; exact Nat.lt_irrefl _)
      refine ⟨{ s with scene :=
        { s.scene with primCount := (s.scene.primCount + 1) % 2 ^ 16 } }, ?_, hmod⟩
      simp only [addPrims, hstep, Outcome.andThen]

/-- The count right after `r_InitScene` is 0. -/
theorem r_InitScene_primCount (E : Env Material Mat4) (s : Renderer Material Mat4) :
    (r_InitScene E s).scene.primCount = 0 := rfl

end Registration

/-- Claim C1.  Starting from the state left by `r_InitScene`, a sequence of `n`
registrations that all return yields the ids `0, 1, ..., n-1` in that order and leaves
`primCount = n`; and every sequence of fewer than `MAX_PRIM_COUNT` registrations does
return. -/
theorem C1_sequential_ids {Material Mat4 : Type} (E : Env Material Mat4)
    (s0 : Renderer Material Mat4) (args : List (Tanto_R_Primitive × Material × Mat4)) :
    (∀ ids s1, addPrims args (r_InitScene E s0) = .returned ids s1 →
      ids = List.range args.length ∧ s1.scene.primCount = args.length) ∧
    (args.length < MAX_PRIM_COUNT →
      ∃ s1, addPrims args (r_InitScene E s0) = .returned (List.range args.length) s1 ∧
        s1.scene.primCount = args.length) := by
  have key : args.length < MAX_PRIM_COUNT →
      ∃ s1, addPrims args (r_InitScene E s0) = .returned (List.range args.length) s1 ∧
        s1.scene.primCount = args.length := by
    intro h
    obtain ⟨s1, h1, h2⟩ := addPrims_of_lt args (r_InitScene E s0)
      (by rw [r_InitScene_primCount]; omega)
    rw [r_InitScene_primCount] at h1 h2
    exact ⟨s1, by rw [h1, List.range_eq_range'], by omega⟩
  refine ⟨?_, key⟩
  intro ids s1 h
  rcases addPrims_returned_lt args _ _ _ h with hnil | hfit
  · subst hnil
    simp only [addPrims] at h
    cases h
    exact ⟨rfl, rfl⟩
  · rw [r_InitScene_primCount] at hfit
    obtain ⟨s2, h1, h2⟩ := key (by omega)
    rw [h1] at h
    cases h
    exact ⟨rfl, h2⟩

/-- Claim C1 at three registrations after `r_InitScene`: the ids are 0, 1, 2 and the
count is 3. -/
theorem C1_sequential_ids_witness :
    [0, 1, 2] = List.range sampleArgs.length ∧
      (addPrims sampleArgs (r_InitScene sampleEnv sampleStart)).state.scene.primCount
        = sampleArgs.length :=
  (C1_sequential_ids sampleEnv sampleStart sampleArgs).1 [0, 1, 2]
    (addPrims sampleArgs (r_InitScene sampleEnv sampleStart)).state rfl

/-- Claim C2.  The code at the claim's input: starting from the state left by
`r_InitScene`, a sequence of `MAX_PRIM_COUNT` registrations does not return.  Its first
`MAX_PRIM_COUNT - 1` calls return, and the last call ends in the failed capacity
assertion, having raised `primCount` to `MAX_PRIM_COUNT`. -/
theorem C2_registering_capacity_fails {Material Mat4 : Type} (E : Env Material Mat4)
    (s0 : Renderer Material Mat4) (args : List (Tanto_R_Primitive × Material × Mat4))
    (h : args.length = MAX_PRIM_COUNT) :
    (addPrims args (r_InitScene E s0)).isReturned = false ∧
      addPrims args (r_InitScene E s0)
        = .assertFailed (addPrims args (r_InitScene E s0)).state ∧
      (addPrims args (r_InitScene E s0)).state.scene.primCount = MAX_PRIM_COUNT ∧
      (addPrims (args.take (MAX_PRIM_COUNT - 1)) (r_InitScene E s0)).isReturned = true := by
  obtain ⟨s1, h1, h2⟩ := addPrims_reaching_max args (r_InitScene E s0)
    (by rw [r_InitScene_primCount]; decide) (by rw [r_InitScene_primCount, h]; omega)
  obtain ⟨s2, h3, _⟩ := addPrims_of_lt (args.take (MAX_PRIM_COUNT - 1)) (r_InitScene E s0)
    (by
      rw [r_InitScene_primCount, List.length_take, h]
      decide)
  rw [h1, h3]
  exact ⟨rfl, rfl, h2, rfl⟩

/-- Claim C2 evaluated at one hundred equal registrations. -/
theorem C2_registering_capacity_fails_witness :
    (addPrims (List.replicate 100 (samplePrim 3, 11, 101))
        (r_InitScene sampleEnv sampleStart)).isReturned = false ∧
      (addPrims (List.replicate 100 (samplePrim 3, 11, 101))
        (r_InitScene sampleEnv sampleStart)).state.scene.primCount = MAX_PRIM_COUNT :=
  have h := C2_registering_capacity_fails sampleEnv sampleStart
    (List.replicate 100 (samplePrim 3, 11, 101)) (List.length_replicate _ _)
  ⟨h.1, h.2.2.1⟩

/-- Claim C3.  In every state with `primCount = MAX_PRIM_COUNT`, `r_AddNewPrim` ends in
the failed capacity assertion, and in the state at that point every entry of the
primitive, material and transform tables is the one it was before the call. -/
theorem C3_beyond_capacity_rejected {Material Mat4 : Type} (p : Tanto_R_Primitive)
    (m : Material) (x : Mat4) (s : Renderer Material Mat4)
    (h : s.scene.primCount = MAX_PRIM_COUNT) :
    r_AddNewPrim p m x s = .assertFailed (r_AddNewPrim p m x s).state ∧
      ∀ i : Fin MAX_PRIM_COUNT,
        (r_AddNewPrim p m x s).state.scene.primitive i = s.scene.primitive i ∧
        (r_AddNewPrim p m x s).state.scene.materials i = s.scene.materials i ∧
        (r_AddNewPrim p m x s).state.scene.transforms i = s.scene.transforms i := by
  have hmod : ¬ (s.scene.primCount + 1) % 2 ^ 16 < MAX_PRIM_COUNT := by
    rw [h]
    decide
  rw [r_AddNewPrim_of_not_lt p m x s hmod]
  exact ⟨rfl, fun i => ⟨rfl, rfl, rfl⟩⟩

/-- Claim C3 at a full registry: the call is rejected and the last slot keeps its
material. -/
theorem C3_beyond_capacity_rejected_witness :
    r_AddNewPrim (samplePrim 3) 11 101 sampleFull
        = .assertFailed (r_AddNewPrim (samplePrim 3) 11 101 sampleFull).state ∧
      (r_AddNewPrim (samplePrim 3) 11 101 sampleFull).state.scene.materials ⟨99, by decide⟩
        = sampleFull.scene.materials ⟨99, by decide⟩ :=
  have h := C3_beyond_capacity_rejected (samplePrim 3) 11 101 sampleFull rfl
  ⟨h.1, (h.2 ⟨99, by decide⟩).2.1⟩

/-- Claim C4.  Whenever `r_AddNewPrim` returns `id`, `id` is the old `primCount`, the count
has grown by one, slot `id` of the primitive, material and transform tables holds the
three values supplied, and the entries at every index below `id` are unchanged. -/
theorem C4_registration_appends {Material Mat4 : Type} (p : Tanto_R_Primitive)
    (m : Material) (x : Mat4) (s s1 : Renderer Material Mat4) (id : Tanto_PrimId)
    (h : r_AddNewPrim p m x s = .returned id s1) :
    id = s.scene.primCount ∧ s1.scene.primCount = s.scene.primCount + 1 ∧
      readSlot s1.scene.primitive id = some p ∧
      readSlot s1.scene.materials id = some m ∧
      readSlot s1.scene.transforms id = some x ∧
      ∀ i : Fin MAX_PRIM_COUNT, i.val < id →
        s1.scene.primitive i = s.scene.primitive i ∧
        s1.scene.materials i = s.scene.materials i ∧
        s1.scene.transforms i = s.scene.transforms i := by
  have hlt := r_AddNewPrim_returned_lt p m x s s1 id h
  have hc : s.scene.primCount < MAX_PRIM_COUNT := Nat.lt_of_succ_lt hlt
  rw [r_AddNewPrim_of_lt p m x s hlt] at h
  cases h
  refine ⟨rfl, rfl, ?_, ?_, ?_, ?_⟩
  · simp [readSlot, hc]
  · simp [readSlot, hc]
  · simp [readSlot, hc]
  · intro i hi
    have hne : i ≠ ⟨s.scene.primCount, hc⟩ := by
      intro e
      rw [e] at hi
      exact Nat.lt_irrefl _ hi
    simp [Function.update_noteq hne]

/-- Claim C4 at the first registration after `r_InitScene`. -/
theorem C4_registration_appends_witness :
    (0 : Nat) = (r_InitScene sampleEnv sampleStart).scene.primCount ∧
      (r_AddNewPrim (samplePrim 3) 11 101
        (r_InitScene sampleEnv sampleStart)).state.scene.primCount = 0 + 1 ∧
      readSlot (r_AddNewPrim (samplePrim 3) 11 101
        (r_InitScene sampleEnv sampleStart)).state.scene.materials 0 = some 11 :=
  have h := C4_registration_appends (samplePrim 3) 11 101
    (r_InitScene sampleEnv sampleStart)
    (r_AddNewPrim (samplePrim 3) 11 101 (r_InitScene sampleEnv sampleStart)).state 0 rfl
  ⟨h.1, h.2.1, h.2.2.2.1⟩

end HdTanto

namespace HdTanto

section Frame

variable {Material Mat4 : Type}

theorem emit_eq_emitAll (c : Call) (s : Renderer Material Mat4) : emit c s = emitAll [c] s := rfl

theorem emitAll_emitAll (a b : List Call) (s : Renderer Material Mat4) :
    emitAll b (emitAll a s) = emitAll (a ++ b) s := by
  simp [emitAll, List.append_assoc]

theorem emitAll_nil (s : Renderer Material Mat4) : emitAll [] s = s := by
  simp [emitAll]

theorem drawPrim_eq (cmdBuf : Nat) (prim : Tanto_R_Primitive) (s : Renderer Material Mat4) :
    drawPrim cmdBuf prim s = emitAll (primCalls cmdBuf prim) s := by
  simp [drawPrim, emit, emitAll, primCalls]

theorem readSlot_fin {α : Type} (table : Fin MAX_PRIM_COUNT → α) (i : Fin MAX_PRIM_COUNT) :
    readSlot table i.val = some (table i) := by
  simp [readSlot, i.isLt]

/-- The draw loop over indices inside the table: it returns, having issued the triple of
each index in turn. -/
theorem mainRenderLoop_fin (cmdBuf : Nat) (idxs : List (Fin MAX_PRIM_COUNT)) :
    ∀ s : Renderer Material Mat4,
      mainRenderLoop cmdBuf (idxs.map Fin.val) s = .returned ()
        (emitAll (idxs.flatMap fun i => primCalls cmdBuf (s.scene.primitive i)) s) := by
  induction idxs with
  | nil => intro s; simp [mainRenderLoop, emitAll_nil]
  | cons i rest ih =>
    intro s
    simp only [List.map_cons, mainRenderLoop, readSlot_fin, drawPrim_eq]
    rw [ih]
    simp [emitAll_emitAll, emitAll]

theorem map_val_castLE (k : Nat) (hk : k ≤ MAX_PRIM_COUNT) :
    ((List.finRange k).map (Fin.castLE hk)).map Fin.val = List.range k := by
  rw [List.map_map, ← List.map_coe_finRange]
  rfl

theorem mainRenderLoop_range (cmdBuf : Nat) (s : Renderer Material Mat4)
    (hk : s.scene.primCount ≤ MAX_PRIM_COUNT) :
    mainRenderLoop cmdBuf (List.range s.scene.primCount) s = .returned ()
      (emitAll ((registered s hk).flatMap (primCalls cmdBuf)) s) := by
  rw [← map_val_castLE _ hk, mainRenderLoop_fin]
  simp [registered, firstEntries, List.flatMap, List.map_map, Function.comp_def]

/-- The material dump over indices inside the table returns and logs no call. -/
theorem printMaterialsLoop_fin (idxs : List (Fin MAX_PRIM_COUNT)) :
    ∀ s : Renderer Material Mat4,
      ∃ s1, printMaterialsLoop (idxs.map Fin.val) s = .returned () s1 ∧
        s1.calls = s.calls := by
  induction idxs with
  | nil => intro s; exact ⟨s, rfl, rfl⟩
  | cons i rest ih =>
    intro s
    simp only [List.map_cons, printMaterialsLoop, readSlot_fin]
    obtain ⟨s1, h1, h2⟩ := ih { s with stdout := s.stdout ++ [⟨i.val, s.scene.materials i⟩] }
    exact ⟨s1, h1, h2⟩

theorem printMaterials_returns (s : Renderer Material Mat4)
    (hk : s.scene.primCount ≤ MAX_PRIM_COUNT) :
    ∃ s1, printMaterials s = .returned () s1 ∧ s1.calls = s.calls := by
  unfold printMaterials
  rw [← map_val_castLE _ hk]
  exact printMaterialsLoop_fin _ s

theorem printMaterials_isReturned (s : Renderer Material Mat4)
    (hk : s.scene.primCount ≤ MAX_PRIM_COUNT) : (printMaterials s).isReturned = true := by
  obtain ⟨s1, h1, _⟩ := printMaterials_returns s hk
  rw [h1]
  rfl

/-- The material dump never logs a call, however it ends. -/
theorem printMaterialsLoop_calls (idxs : List Nat) :
    ∀ s : Renderer Material Mat4, (printMaterialsLoop idxs s).state.calls = s.calls := by
  induction idxs with
  | nil => intro s; rfl
  | cons i rest ih =>
    intro s
    simp only [printMaterialsLoop]
    split
    · rfl
    · rw [ih]

theorem mainRender_eq (cmdBuf : Nat) (info : VkRenderPassBeginInfo)
    (s : Renderer Material Mat4) (hk : s.scene.primCount ≤ MAX_PRIM_COUNT) :
    mainRender cmdBuf info s = .returned ()
      (emitAll ([Call.vkCmdBindPipeline cmdBuf VkConst.VK_PIPELINE_BIND_POINT_GRAPHICS
          s.pipelineMain,
        Call.vkCmdBindDescriptorSets cmdBuf VkConst.VK_PIPELINE_BIND_POINT_GRAPHICS
          (s.pipelineLayouts R_PIPE_LAYOUT_MAIN) 0 1 [s.descriptorSets R_DESC_SET_MAIN] 0,
        Call.vkCmdBeginRenderPass cmdBuf info VkConst.VK_SUBPASS_CONTENTS_INLINE] ++
        (registered s hk).flatMap (primCalls cmdBuf) ++ [Call.vkCmdEndRenderPass cmdBuf]) s) := by
  unfold mainRender
  simp only [emit_eq_emitAll, emitAll_emitAll]
  have h := mainRenderLoop_range cmdBuf (emitAll [Call.vkCmdBindPipeline cmdBuf
      VkConst.VK_PIPELINE_BIND_POINT_GRAPHICS s.pipelineMain,
    Call.vkCmdBindDescriptorSets cmdBuf VkConst.VK_PIPELINE_BIND_POINT_GRAPHICS
      (s.pipelineLayouts R_PIPE_LAYOUT_MAIN) 0 1 [s.descriptorSets R_DESC_SET_MAIN] 0,
    Call.vkCmdBeginRenderPass cmdBuf info VkConst.VK_SUBPASS_CONTENTS_INLINE] s) hk
  simp only [emitAll, List.singleton_append, List.cons_append, List.nil_append] at h ⊢
  rw [h]
  simp [Outcome.andThen, emit, registered, List.append_assoc]

/-- The log after one invocation of `r_UpdateRenderCommands`, when the table accesses
are in bounds and `vkBeginCommandBuffer` succeeds. -/
theorem r_UpdateRenderCommands_calls (E : Env Material Mat4)
    (colorBuffer : Tanto_V_BufferRegion) (s : Renderer Material Mat4)
    (hk : s.scene.primCount ≤ MAX_PRIM_COUNT)
    (hb : E.vkBeginCommandBuffer (s.calls.length + 1) s.cmdPoolRender.buffer = VK_SUCCESS) :
    (r_UpdateRenderCommands E colorBuffer s).state.calls =
      s.calls ++ frameCalls colorBuffer s (registered s hk) := by
  unfold r_UpdateRenderCommands
  have hb1 : E.vkBeginCommandBuffer
      (emit (Call.vkResetCommandPool s.device s.cmdPoolRender.handle 0) s).calls.length
      (emit (Call.vkResetCommandPool s.device s.cmdPoolRender.handle 0) s).cmdPoolRender.buffer
      = VK_SUCCESS := by
    simpa [emit] using hb
  simp only [hb1, V_ASSERT, if_true, Outcome.andThen]
  rw [mainRender_eq _ _ _ (show (emit _ (emit _ s)).scene.primCount ≤ MAX_PRIM_COUNT from hk)]
  simp only []
  split_ifs with he
  · simp only [printMaterials, printMaterialsLoop_calls]
    simp [emit, emitAll, frameCalls, framePrologue, frameBeginPass, frameEndPass,
      frameEpilogue, registered, rpassInfo, imgCopy, clears]
  · simp [Outcome.state, emit, emitAll, frameCalls, framePrologue, frameBeginPass,
      frameEndPass, frameEpilogue, registered, rpassInfo, imgCopy, clears]

/-- The calls one invocation of `r_UpdateRenderCommands` issues, when the table accesses
are in bounds and `vkBeginCommandBuffer` succeeds. -/
theorem recorded_eq (E : Env Material Mat4) (colorBuffer : Tanto_V_BufferRegion)
    (s : Renderer Material Mat4) (hk : s.scene.primCount ≤ MAX_PRIM_COUNT)
    (hb : E.vkBeginCommandBuffer (s.calls.length + 1) s.cmdPoolRender.buffer = VK_SUCCESS) :
    recorded E colorBuffer s = frameCalls colorBuffer s (registered s hk) := by
  unfold recorded
  rw [r_UpdateRenderCommands_calls E colorBuffer s hk hb, List.drop_left]

/-- Recording a frame returns when the table accesses are in bounds and both
`vkBeginCommandBuffer` and `vkEndCommandBuffer` succeed. -/
theorem r_UpdateRenderCommands_returns (E : Env Material Mat4)
    (colorBuffer : Tanto_V_BufferRegion) (s : Renderer Material Mat4)
    (hk : s.scene.primCount ≤ MAX_PRIM_COUNT)
    (hb : E.vkBeginCommandBuffer (s.calls.length + 1) s.cmdPoolRender.buffer = VK_SUCCESS)
    (he : ∀ n, E.vkEndCommandBuffer n s.cmdPoolRender.buffer = VK_SUCCESS) :
    (r_UpdateRenderCommands E colorBuffer s).isReturned = true := by
  unfold r_UpdateRenderCommands
  have hb1 : E.vkBeginCommandBuffer
      (emit (Call.vkResetCommandPool s.device s.cmdPoolRender.handle 0) s).calls.length
      (emit (Call.vkResetCommandPool s.device s.cmdPoolRender.handle 0) s).cmdPoolRender.buffer
      = VK_SUCCESS := by
    simpa [emit] using hb
  simp only [hb1, V_ASSERT, if_true, Outcome.andThen]
  rw [mainRender_eq _ _ _ (show (emit _ (emit _ s)).scene.primCount ≤ MAX_PRIM_COUNT from hk)]
  simp only []
  split_ifs with h
  · apply printMaterials_isReturned
    exact hk
  · exact absurd (he _) h

/-- When `vkBeginCommandBuffer` fails, `V_ASSERT` aborts the run right after that call:
only the reset and the begin have been issued. -/
theorem recorded_of_begin_failed (E : Env Material Mat4) (colorBuffer : Tanto_V_BufferRegion)
    (s : Renderer Material Mat4)
    (hb : E.vkBeginCommandBuffer (s.calls.length + 1) s.cmdPoolRender.buffer ≠ VK_SUCCESS) :
    recorded E colorBuffer s =
      [Call.vkResetCommandPool s.device s.cmdPoolRender.handle 0,
       Call.vkBeginCommandBuffer s.cmdPoolRender.buffer
        VkConst.VK_STRUCTURE_TYPE_COMMAND_BUFFER_BEGIN_INFO] ∧
      (r_UpdateRenderCommands E colorBuffer s).isReturned = false := by
  have hb1 : ¬ E.vkBeginCommandBuffer
      (emit (Call.vkResetCommandPool s.device s.cmdPoolRender.handle 0) s).calls.length
      (emit (Call.vkResetCommandPool s.device s.cmdPoolRender.handle 0) s).cmdPoolRender.buffer
      = VK_SUCCESS := by
    simpa [emit] using hb
  unfold recorded r_UpdateRenderCommands
  simp only [hb1, V_ASSERT, if_false, Outcome.andThen]
  simp [Outcome.state, Outcome.isReturned, emit]

end Frame

end HdTanto

namespace HdTanto

section FrameFacts

variable {Material Mat4 : Type}

theorem filter_isDrawIndexed_flatMap (cmdBuf : Nat) (prims : List Tanto_R_Primitive) :
    (prims.flatMap (primCalls cmdBuf)).filter isDrawIndexed =
      prims.map fun prim => Call.vkCmdDrawIndexed cmdBuf prim.indexCount 1 0 0 0 := by
  induction prims with
  | nil => rfl
  | cons p rest ih =>
    rw [List.flatMap_cons, List.filter_append, ih]
    rfl

theorem filter_isPrimCall_flatMap (cmdBuf : Nat) (prims : List Tanto_R_Primitive) :
    (prims.flatMap (primCalls cmdBuf)).filter isPrimCall = prims.flatMap (primCalls cmdBuf) := by
  induction prims with
  | nil => rfl
  | cons p rest ih =>
    rw [List.flatMap_cons, List.filter_append, ih]
    rfl

theorem filter_isBeginRenderPass_flatMap (cmdBuf : Nat) (prims : List Tanto_R_Primitive) :
    (prims.flatMap (primCalls cmdBuf)).filter isBeginRenderPass = [] := by
  induction prims with
  | nil => rfl
  | cons p rest ih =>
    rw [List.flatMap_cons, List.filter_append, ih]
    rfl

theorem filter_isEndRenderPass_flatMap (cmdBuf : Nat) (prims : List Tanto_R_Primitive) :
    (prims.flatMap (primCalls cmdBuf)).filter isEndRenderPass = [] := by
  induction prims with
  | nil => rfl
  | cons p rest ih =>
    rw [List.flatMap_cons, List.filter_append, ih]
    rfl

theorem filter_isCopyImageToBuffer_flatMap (cmdBuf : Nat) (prims : List Tanto_R_Primitive) :
    (prims.flatMap (primCalls cmdBuf)).filter isCopyImageToBuffer = [] := by
  induction prims with
  | nil => rfl
  | cons p rest ih =>
    rw [List.flatMap_cons, List.filter_append, ih]
    rfl

theorem registered_length (s : Renderer Material Mat4)
    (hk : s.scene.primCount ≤ MAX_PRIM_COUNT) :
    (registered s hk).length = s.scene.primCount := by
  simp [registered, firstEntries]

theorem registered_getElem? (s : Renderer Material Mat4)
    (hk : s.scene.primCount ≤ MAX_PRIM_COUNT) (i : Nat) (hi : i < s.scene.primCount) :
    (registered s hk)[i]? = some (s.scene.primitive ⟨i, Nat.lt_of_lt_of_le hi hk⟩) := by
  have hlen : i < (List.finRange s.scene.primCount).length := by
    rw [List.length_finRange]
    exact hi
  simp only [registered, firstEntries, List.getElem?_map, List.getElem?_eq_getElem hlen,
    List.getElem_finRange, Option.map_some']
  rfl

theorem registered_flatMap (s : Renderer Material Mat4)
    (hk : s.scene.primCount ≤ MAX_PRIM_COUNT) (f : Tanto_R_Primitive → List Call) :
    (registered s hk).flatMap f =
      (List.finRange s.scene.primCount).flatMap
        fun i => f (s.scene.primitive (Fin.castLE hk i)) := by
  simp [registered, firstEntries, List.flatMap, List.map_map, Function.comp_def]

end FrameFacts

/-- Claim C5.  In a state with `primCount = k` inside the table, when the command buffer
can be begun, the calls recorded by `r_UpdateRenderCommands` contain exactly `k` indexed
draws; the `i`-th draws `indexCount` of `primitive[i]` indices in one instance, after the
binds of that same primitive; there is one begin-render-pass, carrying the two clear
values, and one end-render-pass; and for `k = 0` the end directly follows the begin. -/
theorem C5_draw_fidelity {Material Mat4 : Type} (E : Env Material Mat4)
    (colorBuffer : Tanto_V_BufferRegion) (s : Renderer Material Mat4)
    (hk : s.scene.primCount ≤ MAX_PRIM_COUNT)
    (hb : E.vkBeginCommandBuffer (s.calls.length + 1) s.cmdPoolRender.buffer = VK_SUCCESS) :
    ((recorded E colorBuffer s).filter isDrawIndexed).length = s.scene.primCount ∧
      (∀ (i : Nat) (hi : i < s.scene.primCount),
        ((recorded E colorBuffer s).filter isDrawIndexed)[i]? =
          some (Call.vkCmdDrawIndexed s.cmdPoolRender.buffer
            (s.scene.primitive ⟨i, Nat.lt_of_lt_of_le hi hk⟩).indexCount 1 0 0 0)) ∧
      (recorded E colorBuffer s).filter isPrimCall =
        (List.finRange s.scene.primCount).flatMap
          (fun i => primCalls s.cmdPoolRender.buffer (s.scene.primitive (Fin.castLE hk i))) ∧
      (recorded E colorBuffer s).filter isBeginRenderPass = [frameBeginPass s] ∧
      (recorded E colorBuffer s).filter isEndRenderPass = [frameEndPass s] ∧
      (s.scene.primCount = 0 →
        recorded E colorBuffer s =
          framePrologue s ++ [frameBeginPass s, frameEndPass s] ++
            frameEpilogue colorBuffer s) := by
  rw [recorded_eq E colorBuffer s hk hb]
  have hdraw : (frameCalls colorBuffer s (registered s hk)).filter isDrawIndexed =
      (registered s hk).map
        fun prim => Call.vkCmdDrawIndexed s.cmdPoolRender.buffer prim.indexCount 1 0 0 0 := by
    simp only [frameCalls, List.filter_append, filter_isDrawIndexed_flatMap]
    simp [framePrologue, frameBeginPass, frameEndPass, frameEpilogue, isDrawIndexed]
  refine ⟨?_, ?_, ?_, ?_, ?_, ?_⟩
  · rw [hdraw, List.length_map, registered_length]
  · intro i hi
    rw [hdraw, List.getElem?_map, registered_getElem? s hk i hi]
    rfl
  · simp only [frameCalls, List.filter_append, filter_isPrimCall_flatMap]
    rw [registered_flatMap]
    simp [framePrologue, frameBeginPass, frameEndPass, frameEpilogue, isPrimCall]
  · simp only [frameCalls, List.filter_append, filter_isBeginRenderPass_flatMap]
    rfl
  · simp only [frameCalls, List.filter_append, filter_isEndRenderPass_flatMap]
    rfl
  · intro h0
    have hreg : registered s hk = [] := by
      apply List.eq_nil_of_length_eq_zero
      rw [registered_length, h0]
    rw [hreg]
    simp [frameCalls]

/-- Claim C5 at a scene with three primitives: three draws are recorded. -/
theorem C5_draw_fidelity_witness :
    ((recorded sampleEnv ⟨5, 128, 0, 0⟩
        (addPrims sampleArgs (r_InitScene sampleEnv sampleStart)).state).filter
      isDrawIndexed).length = 3 :=
  (C5_draw_fidelity sampleEnv ⟨5, 128, 0, 0⟩
    (addPrims sampleArgs (r_InitScene sampleEnv sampleStart)).state
    (by decide) rfl).1

end HdTanto

namespace HdTanto

section Preservation

variable {Material Mat4 : Type}

/-- A property of the state that holds at the end of the first part of a body, and that
the rest of the body maintains, holds at the end of the whole. -/
theorem Outcome.andThen_state {σ α β : Type} (P : σ → Prop) (o : Outcome σ α)
    (f : α → σ → Outcome σ β) (ho : P o.state) (hf : ∀ v st, P st → P (f v st).state) :
    P (o.andThen f).state := by
  cases o with
  | returned v st => exact hf v st ho
  | assertFailed st => exact ho
  | outOfBounds st => exact ho

/-- The scene at the end of a body is the given one when it is so at the end of the first
part and the rest of the body keeps it. -/
theorem andThen_scene {α β : Type} (sc : Scene Material Mat4)
    (o : Outcome (Renderer Material Mat4) α)
    (f : α → Renderer Material Mat4 → Outcome (Renderer Material Mat4) β)
    (ho : o.state.scene = sc) (hf : ∀ v st, st.scene = sc → (f v st).state.scene = sc) :
    (o.andThen f).state.scene = sc :=
  Outcome.andThen_state (fun st => st.scene = sc) o f ho hf

theorem V_ASSERT_state {σ : Type} (r : Int) (st : σ) :
    (V_ASSERT r st : Outcome σ Unit).state = st := by
  unfold V_ASSERT
  split <;> rfl

theorem mainRenderLoop_scene (cmdBuf : Nat) (idxs : List Nat) :
    ∀ s : Renderer Material Mat4, (mainRenderLoop cmdBuf idxs s).state.scene = s.scene := by
  induction idxs with
  | nil => intro s; rfl
  | cons i rest ih =>
    intro s
    simp only [mainRenderLoop]
    split
    · rfl
    · rw [ih]
      rfl

theorem mainRender_scene (cmdBuf : Nat) (info : VkRenderPassBeginInfo)
    (s : Renderer Material Mat4) : (mainRender cmdBuf info s).state.scene = s.scene := by
  unfold mainRender
  dsimp only
  refine andThen_scene s.scene _ _ ?_ ?_
  · rw [mainRenderLoop_scene]
    rfl
  · intro _ st h
    exact h

theorem printMaterialsLoop_scene (idxs : List Nat) :
    ∀ s : Renderer Material Mat4, (printMaterialsLoop idxs s).state.scene = s.scene := by
  induction idxs with
  | nil => intro s; rfl
  | cons i rest ih =>
    intro s
    simp only [printMaterialsLoop]
    split
    · rfl
    · rw [ih]

/-- Recording a frame leaves the scene as it was, however the run ends. -/
theorem r_UpdateRenderCommands_scene (E : Env Material Mat4)
    (colorBuffer : Tanto_V_BufferRegion) (s : Renderer Material Mat4) :
    (r_UpdateRenderCommands E colorBuffer s).state.scene = s.scene := by
  unfold r_UpdateRenderCommands
  dsimp only
  refine andThen_scene s.scene _ _ ?_ ?_
  · rw [V_ASSERT_state]
    rfl
  · intro _ s3 h3
    refine andThen_scene s.scene _ _ ?_ ?_
    · rw [mainRender_scene]
      exact h3
    · intro _ s4 h4
      refine andThen_scene s.scene _ _ ?_ ?_
      · rw [V_ASSERT_state]
        exact h4
      · intro _ s7 h7
        unfold printMaterials
        rw [printMaterialsLoop_scene]
        exact h7

theorem emit_scene (c : Call) (s : Renderer Material Mat4) : (emit c s).scene = s.scene := rfl

theorem initAttachments_scene (E : Env Material Mat4) (s : Renderer Material Mat4) :
    (initAttachments E s).scene = s.scene := rfl

theorem initRenderPass_scene (E : Env Material Mat4) (s : Renderer Material Mat4) :
    (initRenderPass E s).scene = s.scene := rfl

theorem initPipelines_scene (E : Env Material Mat4) (s : Renderer Material Mat4) :
    (initPipelines E s).scene = s.scene := rfl

theorem r_SetViewport_scene (width height : Nat) (s : Renderer Material Mat4) :
    (r_SetViewport width height s).scene = s.scene := rfl

theorem r_CleanUp_scene (E : Env Material Mat4) (s : Renderer Material Mat4) :
    (r_CleanUp E s).scene = s.scene := rfl

theorem initFramebuffer_scene (E : Env Material Mat4) (s : Renderer Material Mat4) :
    (initFramebuffer E s).state.scene = s.scene := by
  unfold initFramebuffer
  rw [V_ASSERT_state]
  rfl

/-- A resize leaves the scene as it was, however the run ends. -/
theorem r_UpdateViewport_scene (E : Env Material Mat4) (width height : Nat)
    (colorBuffer : Tanto_V_BufferRegion) (s : Renderer Material Mat4) :
    (r_UpdateViewport E width height colorBuffer s).state.scene = s.scene := by
  unfold r_UpdateViewport
  refine andThen_scene s.scene _ _ ?_ ?_
  · rw [initFramebuffer_scene, initPipelines_scene, initAttachments_scene, r_CleanUp_scene,
      r_SetViewport_scene, emit_scene]
  · intro _ s6 h6
    rw [r_UpdateRenderCommands_scene]
    exact h6

theorem r_InitRenderer_scene (E : Env Material Mat4) (s : Renderer Material Mat4) :
    (r_InitRenderer E s).state.scene = s.scene := by
  unfold r_InitRenderer
  refine andThen_scene s.scene _ _ ?_ ?_
  · rw [initFramebuffer_scene, initRenderPass_scene, initAttachments_scene]
  · intro _ s3 h3
    exact h3

/-- Every operation that returns leaves `primCount` at most `MAX_PRIM_COUNT` when it was
so before. -/
theorem Step.primCount_le (E : Env Material Mat4) (s s1 : Renderer Material Mat4)
    (h : s.scene.primCount ≤ MAX_PRIM_COUNT) (hs : Step E s s1) :
    s1.scene.primCount ≤ MAX_PRIM_COUNT := by
  cases hs with
  | initScene => exact Nat.zero_le _
  | initRenderer _ _ hr =>
    have e := r_InitRenderer_scene E s
    rw [hr] at e
    have e1 : s1.scene = s.scene := e
    rw [e1]
    exact h
  | addNewPrim p m x _ _ id hr =>
    have hlt := r_AddNewPrim_returned_lt p m x s s1 id hr
    obtain ⟨st, h1, h2⟩ := r_AddNewPrim_step p m x s hlt
    rw [h1] at hr
    cases hr
    rw [h2]
    exact Nat.le_of_lt hlt
  | updateCamera camera => exact h
  | setViewport width height => exact h
  | updateRenderCommands colorBuffer _ _ hr =>
    have e := r_UpdateRenderCommands_scene E colorBuffer s
    rw [hr] at e
    have e1 : s1.scene = s.scene := e
    rw [e1]
    exact h
  | render => exact h
  | updateViewport width height colorBuffer _ _ hr =>
    have e := r_UpdateViewport_scene E width height colorBuffer s
    rw [hr] at e
    have e1 : s1.scene = s.scene := e
    rw [e1]
    exact h
  | cleanUp => exact h
  | updatePrimitive p _ _ hr => simp [r_UpdatePrimitive] at hr
  | updatePrimTransform m _ _ hr => simp [r_UpdatePrimTransform] at hr

end Preservation

/-- Claim C6.  After `r_UpdateViewport`, whether it returned or was aborted, `primCount` and
the primitive, material and transform entries at every index below `primCount` are those
from before the call. -/
theorem C6_resize_preserves_scene {Material Mat4 : Type} (E : Env Material Mat4)
    (width height : Nat) (colorBuffer : Tanto_V_BufferRegion) (s : Renderer Material Mat4) :
    (r_UpdateViewport E width height colorBuffer s).state.scene.primCount
        = s.scene.primCount ∧
      ∀ i : Fin MAX_PRIM_COUNT, i.val < s.scene.primCount →
        (r_UpdateViewport E width height colorBuffer s).state.scene.primitive i
            = s.scene.primitive i ∧
          (r_UpdateViewport E width height colorBuffer s).state.scene.materials i
            = s.scene.materials i ∧
          (r_UpdateViewport E width height colorBuffer s).state.scene.transforms i
            = s.scene.transforms i := by
  rw [r_UpdateViewport_scene]
  exact ⟨rfl, fun _ _ => ⟨rfl, rfl, rfl⟩⟩

/-- Claim C6 at a resize to 640 by 480 of a scene with three primitives. -/
theorem C6_resize_preserves_scene_witness :
    (r_UpdateViewport sampleEnv 640 480 ⟨5, 128, 0, 0⟩
        (addPrims sampleArgs (r_InitScene sampleEnv sampleStart)).state).state.scene.materials
        ⟨1, by decide⟩
      = (addPrims sampleArgs (r_InitScene sampleEnv sampleStart)).state.scene.materials
        ⟨1, by decide⟩ :=
  ((C6_resize_preserves_scene sampleEnv 640 480 ⟨5, 128, 0, 0⟩
    (addPrims sampleArgs (r_InitScene sampleEnv sampleStart)).state).2
      ⟨1, by decide⟩ (by decide)).2.1

/-- Claim C7.  `r_UpdateCamera` changes the mapped camera record and nothing else; the
record then holds the view matrix, the projection matrix, and `m_Invert4x4` of each; a
second call with the same camera changes nothing. -/
theorem C7_camera_update {Material Mat4 : Type} (E : Env Material Mat4)
    (camera : Tanto_Camera Mat4) (s : Renderer Material Mat4) :
    r_UpdateCamera E camera s = { s with scene := { s.scene with camera :=
        { matView := camera.view
          matProj := camera.proj
          viewInv := E.m_Invert4x4 camera.view
          projInv := E.m_Invert4x4 camera.proj } } } ∧
      r_UpdateCamera E camera (r_UpdateCamera E camera s) = r_UpdateCamera E camera s :=
  ⟨rfl, rfl⟩

/-- Claim C8.  `r_UpdatePrimitive` and `r_UpdatePrimTransform` end in the failed assertion
for every argument and every state, with the state unchanged. -/
theorem C8_updates_always_fail {Material Mat4 : Type} (p : Tanto_R_Primitive) (m : Mat4)
    (s : Renderer Material Mat4) :
    r_UpdatePrimitive p s = .assertFailed s ∧ r_UpdatePrimTransform m s = .assertFailed s := by
  constructor
  · simp [r_UpdatePrimitive]
  · simp [r_UpdatePrimTransform]

/-- Claim C9.  The registry invariant `0 ≤ primCount ≤ MAX_PRIM_COUNT` holds in the state
`r_InitScene` leaves, is preserved by every operation that returns, and so holds in every
state reachable from `r_InitScene`. -/
theorem C9_registry_invariant {Material Mat4 : Type} (E : Env Material Mat4) :
    (∀ s0 : Renderer Material Mat4, registryInvariant (r_InitScene E s0)) ∧
      (∀ s s1 : Renderer Material Mat4, registryInvariant s → Step E s s1 →
        registryInvariant s1) ∧
      (∀ s : Renderer Material Mat4, Reachable E s → registryInvariant s) := by
  have hinit : ∀ s0 : Renderer Material Mat4, registryInvariant (r_InitScene E s0) :=
    fun s0 => ⟨Nat.zero_le _, Nat.zero_le _⟩
  have hstep : ∀ s s1 : Renderer Material Mat4, registryInvariant s → Step E s s1 →
      registryInvariant s1 :=
    fun s s1 h hs => ⟨Nat.zero_le _, Step.primCount_le E s s1 h.2 hs⟩
  refine ⟨hinit, hstep, ?_⟩
  intro s hr
  induction hr with
  | init s0 => exact hinit s0
  | step s s1 _ hs ih => exact hstep s s1 ih hs

/-- Claim C9 at the state reached by `r_InitScene` and one registration. -/
theorem C9_registry_invariant_witness :
    registryInvariant
      (r_AddNewPrim (samplePrim 3) 11 101 (r_InitScene sampleEnv sampleStart)).state :=
  (C9_registry_invariant sampleEnv).2.2 _
    (Reachable.step _ _ (Reachable.init sampleStart)
      (Step.addNewPrim (samplePrim 3) 11 101 _ _ 0 rfl))

end HdTanto

namespace HdTanto

/-- Claim C10.  In a state with `primCount` inside the table, when the command buffer can
be begun, the native calls issued by `r_UpdateRenderCommands` are, in order: reset command
pool, begin command buffer, bind pipeline, bind descriptor set; begin render pass; for each
`i` below `primCount` in increasing order the triple of `primitive[i]`; end render pass;
one copy of the colour attachment into the caller's buffer, end command buffer.  No draw
and no copy stands before the begin of the render pass, no copy stands inside the pass, and
no draw stands after its end. -/
theorem C10_frame_call_order {Material Mat4 : Type} (E : Env Material Mat4)
    (colorBuffer : Tanto_V_BufferRegion) (s : Renderer Material Mat4)
    (hk : s.scene.primCount ≤ MAX_PRIM_COUNT)
    (hb : E.vkBeginCommandBuffer (s.calls.length + 1) s.cmdPoolRender.buffer = VK_SUCCESS) :
    recorded E colorBuffer s =
        framePrologue s ++ [frameBeginPass s] ++
          (List.finRange s.scene.primCount).flatMap
            (fun i => primCalls s.cmdPoolRender.buffer (s.scene.primitive (Fin.castLE hk i))) ++
          [frameEndPass s] ++ frameEpilogue colorBuffer s ∧
      (∀ c ∈ framePrologue s, isDrawIndexed c = false ∧ isCopyImageToBuffer c = false) ∧
      (∀ c ∈ (List.finRange s.scene.primCount).flatMap
          (fun i => primCalls s.cmdPoolRender.buffer (s.scene.primitive (Fin.castLE hk i))),
        isCopyImageToBuffer c = false) ∧
      (∀ c ∈ frameEpilogue colorBuffer s, isDrawIndexed c = false) ∧
      (frameEpilogue colorBuffer s).filter isCopyImageToBuffer =
        [Call.vkCmdCopyImageToBuffer s.cmdPoolRender.buffer s.attachmentColor.handle
          VkConst.VK_IMAGE_LAYOUT_TRANSFER_SRC_OPTIMAL colorBuffer.buffer 1
          [{ imageOffset := { x := 0, y := 0, z := 0 }
             imageExtent := s.attachmentColor.extent
             imageSubresource :=
               { aspectMask := VkConst.VK_IMAGE_ASPECT_COLOR_BIT
                 baseArrayLayer := 0
                 layerCount := 1
                 mipLevel := 0 }
             bufferOffset := colorBuffer.offset
             bufferImageHeight := 0
             bufferRowLength := 0 }]] := by
  refine ⟨?_, ?_, ?_, ?_, ?_⟩
  · rw [recorded_eq E colorBuffer s hk hb, frameCalls, registered_flatMap]
  · intro c hc
    simp only [framePrologue, List.mem_cons, List.mem_singleton, List.not_mem_nil,
      or_false] at hc
    rcases hc with h | h | h | h <;> subst h <;> exact ⟨rfl, rfl⟩
  · intro c hc
    rw [← registered_flatMap s hk] at hc
    have hnil := filter_isCopyImageToBuffer_flatMap s.cmdPoolRender.buffer (registered s hk)
    by_contra hne
    have hmem : c ∈ ((registered s hk).flatMap (primCalls s.cmdPoolRender.buffer)).filter
        isCopyImageToBuffer := by
      rw [List.mem_filter]
      exact ⟨hc, by simpa using hne⟩
    rw [hnil] at hmem
    cases hmem
  · intro c hc
    simp only [frameEpilogue, List.mem_cons, List.mem_singleton, List.not_mem_nil,
      or_false] at hc
    rcases hc with h | h <;> subst h <;> rfl
  · rfl

/-- Claim C10 at a scene with three primitives: the calls issued are the eight calls of
the frame around the three triples. -/
theorem C10_frame_call_order_witness :
    (recorded sampleEnv ⟨5, 128, 0, 0⟩
        (addPrims sampleArgs (r_InitScene sampleEnv sampleStart)).state).length = 17 := by
  rw [(C10_frame_call_order sampleEnv ⟨5, 128, 0, 0⟩
    (addPrims sampleArgs (r_InitScene sampleEnv sampleStart)).state (by decide) rfl).1]
  rfl

end HdTanto

namespace HdTanto

section Resize

variable {Material Mat4 : Type}

theorem initFramebuffer_state (E : Env Material Mat4) (s : Renderer Material Mat4) :
    (initFramebuffer E s).state =
      { emit (Call.vkCreateFramebuffer s.device (framebufferInfo s)) s with
        framebuffer := (E.vkCreateFramebuffer s.calls.length (framebufferInfo s)).2 } := by
  unfold initFramebuffer
  rw [V_ASSERT_state]

/-- The state after the wait, the store of the size, the teardown and the rebuild. -/
theorem resize_prepared (E : Env Material Mat4) (width height : Nat)
    (s : Renderer Material Mat4) :
    (initFramebuffer E (initPipelines E (initAttachments E (r_CleanUp E
      (r_SetViewport width height (emit (Call.vkDeviceWaitIdle s.device) s)))))).state =
      resizeRebuilt E width height s := by
  rw [initFramebuffer_state]
  simp [initPipelines, initAttachments, r_CleanUp, r_SetViewport, emit, resizeRebuilt,
    resizeCalls, teardownCalls, rebuildCalls, resizeColor, resizeDepth,
    resizeFramebufferInfo, framebufferInfo, pipelineInfo]

theorem addsOnly_refl (p : Call → Bool) (s : Renderer Material Mat4) : addsOnly p s s :=
  ⟨[], by simp, by simp⟩

theorem addsOnly_emitAll (p : Call → Bool) (s st : Renderer Material Mat4) (cs : List Call)
    (h : addsOnly p s st) (hcs : ∀ c ∈ cs, p c = true) : addsOnly p s (emitAll cs st) := by
  obtain ⟨ds, h1, h2⟩ := h
  refine ⟨ds ++ cs, ?_, ?_⟩
  · simp [emitAll, h1, List.append_assoc]
  · intro c hc
    rcases List.mem_append.mp hc with h | h
    · exact h2 c h
    · exact hcs c h

theorem addsOnly_emit (p : Call → Bool) (s st : Renderer Material Mat4) (c : Call)
    (h : addsOnly p s st) (hc : p c = true) : addsOnly p s (emit c st) := by
  rw [emit_eq_emitAll]
  exact addsOnly_emitAll p s st [c] h (by simpa using hc)

theorem addsOnly_of_calls_eq (p : Call → Bool) (s st st1 : Renderer Material Mat4)
    (h : addsOnly p s st) (he : st1.calls = st.calls) : addsOnly p s st1 := by
  obtain ⟨ds, h1, h2⟩ := h
  exact ⟨ds, by rw [he, h1], h2⟩

theorem V_ASSERT_addsOnly (p : Call → Bool) (r : Int) (s st : Renderer Material Mat4)
    (h : addsOnly p s st) :
    addsOnly p s (V_ASSERT r st : Outcome (Renderer Material Mat4) Unit).state := by
  rw [V_ASSERT_state]
  exact h

theorem mainRenderLoop_addsOnly (cmdBuf : Nat) (s0 : Renderer Material Mat4)
    (idxs : List Nat) :
    ∀ s : Renderer Material Mat4, addsOnly isFrameCall s0 s →
      addsOnly isFrameCall s0 (mainRenderLoop cmdBuf idxs s).state := by
  induction idxs with
  | nil => intro s h; exact h
  | cons i rest ih =>
    intro s h
    simp only [mainRenderLoop]
    split
    · exact h
    · apply ih
      rw [drawPrim_eq]
      apply addsOnly_emitAll _ _ _ _ h
      intro c hc
      simp only [primCalls, List.mem_cons, List.mem_singleton, List.not_mem_nil,
        or_false] at hc
      rcases hc with e | e | e <;> subst e <;> rfl

theorem mainRender_addsOnly (cmdBuf : Nat) (info : VkRenderPassBeginInfo)
    (s0 s : Renderer Material Mat4) (h : addsOnly isFrameCall s0 s) :
    addsOnly isFrameCall s0 (mainRender cmdBuf info s).state := by
  unfold mainRender
  dsimp only
  refine Outcome.andThen_state (addsOnly isFrameCall s0) _ _ ?_ ?_
  · apply mainRenderLoop_addsOnly
    exact addsOnly_emit _ _ _ _ (addsOnly_emit _ _ _ _ (addsOnly_emit _ _ _ _ h rfl) rfl) rfl
  · intro _ st hst
    exact addsOnly_emit _ _ _ _ hst rfl

/-- Recording a frame adds only frame calls to the log, however the run ends. -/
theorem r_UpdateRenderCommands_addsOnly (E : Env Material Mat4)
    (colorBuffer : Tanto_V_BufferRegion) (s : Renderer Material Mat4) :
    addsOnly isFrameCall s (r_UpdateRenderCommands E colorBuffer s).state := by
  unfold r_UpdateRenderCommands
  dsimp only
  refine Outcome.andThen_state (addsOnly isFrameCall s) _ _ ?_ ?_
  · apply V_ASSERT_addsOnly
    exact addsOnly_emit _ _ _ _ (addsOnly_emit _ _ _ _ (addsOnly_refl _ s) rfl) rfl
  · intro _ s3 h3
    refine Outcome.andThen_state (addsOnly isFrameCall s) _ _ ?_ ?_
    · exact mainRender_addsOnly _ _ s s3 h3
    · intro _ s4 h4
      refine Outcome.andThen_state (addsOnly isFrameCall s) _ _ ?_ ?_
      · apply V_ASSERT_addsOnly
        exact addsOnly_emit _ _ _ _ (addsOnly_emit _ _ _ _ h4 rfl) rfl
      · intro _ s7 h7
        unfold printMaterials
        exact addsOnly_of_calls_eq _ _ _ _ h7 (printMaterialsLoop_calls _ s7)

theorem mainRenderLoop_sameVariables (cmdBuf : Nat) (s0 : Renderer Material Mat4)
    (idxs : List Nat) :
    ∀ s : Renderer Material Mat4, sameVariables s0 s →
      sameVariables s0 (mainRenderLoop cmdBuf idxs s).state := by
  induction idxs with
  | nil => intro s h; exact h
  | cons i rest ih =>
    intro s h
    simp only [mainRenderLoop]
    split
    · exact h
    · apply ih
      exact h

theorem printMaterialsLoop_sameVariables (s0 : Renderer Material Mat4) (idxs : List Nat) :
    ∀ s : Renderer Material Mat4, sameVariables s0 s →
      sameVariables s0 (printMaterialsLoop idxs s).state := by
  induction idxs with
  | nil => intro s h; exact h
  | cons i rest ih =>
    intro s h
    simp only [printMaterialsLoop]
    split
    · exact h
    · apply ih
      exact h

/-- Recording a frame changes none of the variables, however the run ends. -/
theorem r_UpdateRenderCommands_sameVariables (E : Env Material Mat4)
    (colorBuffer : Tanto_V_BufferRegion) (s : Renderer Material Mat4) :
    sameVariables s (r_UpdateRenderCommands E colorBuffer s).state := by
  unfold r_UpdateRenderCommands
  dsimp only
  refine Outcome.andThen_state (sameVariables s) _ _ ?_ ?_
  · rw [V_ASSERT_state]
    rfl
  · intro _ s3 h3
    refine Outcome.andThen_state (sameVariables s) _ _ ?_ ?_
    · unfold mainRender
      dsimp only
      refine Outcome.andThen_state (sameVariables s) _ _ ?_ ?_
      · apply mainRenderLoop_sameVariables
        exact h3
      · intro _ st hst
        exact hst
    · intro _ s4 h4
      refine Outcome.andThen_state (sameVariables s) _ _ ?_ ?_
      · rw [V_ASSERT_state]
        exact h4
      · intro _ s7 h7
        unfold printMaterials
        exact printMaterialsLoop_sameVariables s _ s7 h7

/-- The calls one frame recording issues are frame calls. -/
theorem recorded_frameOnly (E : Env Material Mat4) (colorBuffer : Tanto_V_BufferRegion)
    (s : Renderer Material Mat4) : ∀ c ∈ recorded E colorBuffer s, isFrameCall c = true := by
  obtain ⟨cs, h1, h2⟩ := r_UpdateRenderCommands_addsOnly E colorBuffer s
  unfold recorded
  rw [h1, List.drop_left]
  exact h2

/-- The framebuffer creation of a resize, on the state the earlier steps have prepared. -/
theorem initFramebuffer_prepared (E : Env Material Mat4) (width height : Nat)
    (s : Renderer Material Mat4) :
    initFramebuffer E (initPipelines E (initAttachments E (r_CleanUp E
      (r_SetViewport width height (emit (Call.vkDeviceWaitIdle s.device) s))))) =
      V_ASSERT (E.vkCreateFramebuffer (s.calls.length + 8)
        (resizeFramebufferInfo E width height s)).1 (resizeRebuilt E width height s) := by
  unfold initFramebuffer
  simp [initPipelines, initAttachments, r_CleanUp, r_SetViewport, emit, resizeRebuilt,
    resizeCalls, teardownCalls, rebuildCalls, resizeColor, resizeDepth,
    resizeFramebufferInfo, framebufferInfo, pipelineInfo]

/-- A resize whose framebuffer creation succeeds is the frame recording on the rebuilt
state. -/
theorem r_UpdateViewport_of_created (E : Env Material Mat4) (width height : Nat)
    (colorBuffer : Tanto_V_BufferRegion) (s : Renderer Material Mat4)
    (hf : (E.vkCreateFramebuffer (s.calls.length + 8)
      (resizeFramebufferInfo E width height s)).1 = VK_SUCCESS) :
    r_UpdateViewport E width height colorBuffer s =
      r_UpdateRenderCommands E colorBuffer (resizeRebuilt E width height s) := by
  unfold r_UpdateViewport
  dsimp only
  rw [initFramebuffer_prepared]
  simp [V_ASSERT, hf, Outcome.andThen]

/-- A resize whose framebuffer creation fails is aborted on the rebuilt state. -/
theorem r_UpdateViewport_of_not_created (E : Env Material Mat4) (width height : Nat)
    (colorBuffer : Tanto_V_BufferRegion) (s : Renderer Material Mat4)
    (hf : ¬ (E.vkCreateFramebuffer (s.calls.length + 8)
      (resizeFramebufferInfo E width height s)).1 = VK_SUCCESS) :
    r_UpdateViewport E width height colorBuffer s =
      .assertFailed (resizeRebuilt E width height s) := by
  unfold r_UpdateViewport
  dsimp only
  rw [initFramebuffer_prepared]
  simp [V_ASSERT, hf, Outcome.andThen]

theorem resizeRebuilt_calls (E : Env Material Mat4) (width height : Nat)
    (s : Renderer Material Mat4) :
    (resizeRebuilt E width height s).calls = s.calls ++ resizeCalls E width height s := rfl

/-- The calls of a resize whose framebuffer creation succeeds. -/
theorem resized_of_created (E : Env Material Mat4) (width height : Nat)
    (colorBuffer : Tanto_V_BufferRegion) (s : Renderer Material Mat4)
    (hf : (E.vkCreateFramebuffer (s.calls.length + 8)
      (resizeFramebufferInfo E width height s)).1 = VK_SUCCESS) :
    resized E width height colorBuffer s =
      resizeCalls E width height s ++
        recorded E colorBuffer (resizeRebuilt E width height s) := by
  obtain ⟨cs, h1, _⟩ :=
    r_UpdateRenderCommands_addsOnly E colorBuffer (resizeRebuilt E width height s)
  unfold resized recorded
  rw [r_UpdateViewport_of_created E width height colorBuffer s hf, h1, List.drop_left,
    resizeRebuilt_calls, List.append_assoc, List.drop_left]

/-- The calls of a resize, however it ends: the wait, the teardown and the rebuild, then
frame calls only. -/
theorem resized_shape (E : Env Material Mat4) (width height : Nat)
    (colorBuffer : Tanto_V_BufferRegion) (s : Renderer Material Mat4) :
    ∃ cs, resized E width height colorBuffer s = resizeCalls E width height s ++ cs ∧
      ∀ c ∈ cs, isFrameCall c = true := by
  by_cases hf : (E.vkCreateFramebuffer (s.calls.length + 8)
      (resizeFramebufferInfo E width height s)).1 = VK_SUCCESS
  · exact ⟨_, resized_of_created E width height colorBuffer s hf,
      recorded_frameOnly E colorBuffer _⟩
  · refine ⟨[], ?_, by simp⟩
    unfold resized
    rw [r_UpdateViewport_of_not_created E width height colorBuffer s hf]
    simp [Outcome.state, resizeRebuilt_calls]

/-- The variables after a resize, however it ends, are those of the rebuilt state. -/
theorem r_UpdateViewport_sameVariables (E : Env Material Mat4) (width height : Nat)
    (colorBuffer : Tanto_V_BufferRegion) (s : Renderer Material Mat4) :
    sameVariables (resizeRebuilt E width height s)
      (r_UpdateViewport E width height colorBuffer s).state := by
  by_cases hf : (E.vkCreateFramebuffer (s.calls.length + 8)
      (resizeFramebufferInfo E width height s)).1 = VK_SUCCESS
  · rw [r_UpdateViewport_of_created E width height colorBuffer s hf]
    exact r_UpdateRenderCommands_sameVariables E colorBuffer _
  · rw [r_UpdateViewport_of_not_created E width height colorBuffer s hf]
    rfl

theorem isDestroyCall_of_isFrameCall (c : Call) (h : isFrameCall c = true) :
    isDestroyCall c = false := by
  cases c <;> first | rfl | cases h

theorem isLayoutOrPassSetup_of_isFrameCall (c : Call) (h : isFrameCall c = true) :
    isLayoutOrPassSetup c = false := by
  cases c <;> first | rfl | cases h

end Resize

/-- Claim C11.  `r_UpdateViewport` is, in this order: wait for the device to be idle, store
the new width and height, `r_CleanUp`, recreate the attachments, the pipeline and the
framebuffer, then `r_UpdateRenderCommands`.  Its calls are the wait, the four destroys
(framebuffer, depth image, colour image, pipeline), the four creations (two images at the
new size, the pipeline against the old render pass, the framebuffer), then frame calls
only; when the framebuffer is created they are exactly the calls of the recorder on the
rebuilt state.  No call creates or writes a descriptor set, a pipeline layout or a render
pass, the only destroys are those four, and the three objects are left as they were.
`r_CleanUp` alone issues exactly the four destroys. -/
theorem C11_resize_protocol_order {Material Mat4 : Type} (E : Env Material Mat4)
    (width height : Nat) (colorBuffer : Tanto_V_BufferRegion) (s : Renderer Material Mat4) :
    r_UpdateViewport E width height colorBuffer s =
        (initFramebuffer E (initPipelines E (initAttachments E (r_CleanUp E
          (r_SetViewport width height (emit (Call.vkDeviceWaitIdle s.device) s)))))).andThen
          (fun _ s6 => r_UpdateRenderCommands E colorBuffer s6) ∧
      (∃ cs, resized E width height colorBuffer s = resizeCalls E width height s ++ cs ∧
        ∀ c ∈ cs, isFrameCall c = true) ∧
      ((E.vkCreateFramebuffer (s.calls.length + 8)
          (resizeFramebufferInfo E width height s)).1 = VK_SUCCESS →
        r_UpdateViewport E width height colorBuffer s =
            r_UpdateRenderCommands E colorBuffer (resizeRebuilt E width height s) ∧
          resized E width height colorBuffer s =
            resizeCalls E width height s ++
              recorded E colorBuffer (resizeRebuilt E width height s)) ∧
      withoutLog (r_UpdateViewport E width height colorBuffer s).state =
        withoutLog (resizeRebuilt E width height s) ∧
      (r_UpdateViewport E width height colorBuffer s).state.TANTO_WINDOW_WIDTH = width ∧
      (r_UpdateViewport E width height colorBuffer s).state.TANTO_WINDOW_HEIGHT = height ∧
      (resized E width height colorBuffer s).filter isDestroyCall = teardownCalls s ∧
      (resized E width height colorBuffer s).filter isLayoutOrPassSetup = [] ∧
      (r_UpdateViewport E width height colorBuffer s).state.renderpass = s.renderpass ∧
      (r_UpdateViewport E width height colorBuffer s).state.descriptorSets
        = s.descriptorSets ∧
      (r_UpdateViewport E width height colorBuffer s).state.pipelineLayouts
        = s.pipelineLayouts ∧
      (r_CleanUp E s).calls = s.calls ++ teardownCalls s ∧
      (r_CleanUp E s).renderpass = s.renderpass ∧
      (r_CleanUp E s).descriptorSets = s.descriptorSets ∧
      (r_CleanUp E s).pipelineLayouts = s.pipelineLayouts := by
  have hvars : withoutLog (r_UpdateViewport E width height colorBuffer s).state =
      withoutLog (resizeRebuilt E width height s) :=
    r_UpdateViewport_sameVariables E width height colorBuffer s
  have hshape := resized_shape E width height colorBuffer s
  refine ⟨rfl, hshape, ?_, hvars, ?_, ?_, ?_, ?_, ?_, ?_, ?_, ?_, rfl, rfl, rfl⟩
  · intro hf
    exact ⟨r_UpdateViewport_of_created E width height colorBuffer s hf,
      resized_of_created E width height colorBuffer s hf⟩
  · exact congrArg Renderer.TANTO_WINDOW_WIDTH hvars
  · exact congrArg Renderer.TANTO_WINDOW_HEIGHT hvars
  · obtain ⟨cs, h1, h2⟩ := hshape
    have hcs : cs.filter isDestroyCall = [] := by
      rw [List.filter_eq_nil_iff]
      intro c hc
      rw [isDestroyCall_of_isFrameCall c (h2 c hc)]
      exact Bool.false_ne_true
    rw [h1, List.filter_append, hcs, List.append_nil]
    rfl
  · obtain ⟨cs, h1, h2⟩ := hshape
    have hcs : cs.filter isLayoutOrPassSetup = [] := by
      rw [List.filter_eq_nil_iff]
      intro c hc
      rw [isLayoutOrPassSetup_of_isFrameCall c (h2 c hc)]
      exact Bool.false_ne_true
    rw [h1, List.filter_append, hcs, List.append_nil]
    rfl
  · exact (congrArg Renderer.renderpass hvars : _)
  · exact (congrArg Renderer.descriptorSets hvars : _)
  · exact (congrArg Renderer.pipelineLayouts hvars : _)
  · simp [r_CleanUp, emit, teardownCalls]

/-- Claim C11 at a resize to 640 by 480 of a scene with three primitives: the framebuffer
is created, and the calls are the nine of the protocol followed by those of the frame. -/
theorem C11_resize_protocol_order_witness :
    resized sampleEnv 640 480 ⟨5, 128, 0, 0⟩
        (addPrims sampleArgs (r_InitScene sampleEnv sampleStart)).state =
      resizeCalls sampleEnv 640 480
          (addPrims sampleArgs (r_InitScene sampleEnv sampleStart)).state ++
        recorded sampleEnv ⟨5, 128, 0, 0⟩
          (resizeRebuilt sampleEnv 640 480
            (addPrims sampleArgs (r_InitScene sampleEnv sampleStart)).state) :=
  ((C11_resize_protocol_order sampleEnv 640 480 ⟨5, 128, 0, 0⟩
    (addPrims sampleArgs (r_InitScene sampleEnv sampleStart)).state).2.2.1 rfl).2

end HdTanto

namespace HdTanto

section Trap

variable {Material Mat4 : Type}

/-- When the incremented count is below `MAX_PRIM_COUNT` the run does not end in the
failed assertion. -/
theorem r_AddNewPrim_not_assertFailed (p : Tanto_R_Primitive) (m : Material) (x : Mat4)
    (s st : Renderer Material Mat4)
    (hlt : (s.scene.primCount + 1) % 2 ^ 16 < MAX_PRIM_COUNT) :
    r_AddNewPrim p m x s ≠ .assertFailed st := by
  have h1 : (s.scene.primCount + 1) % 65536 < MAX_PRIM_COUNT := by simpa using hlt
  intro h
  simp only [r_AddNewPrim, Nat.reducePow, h1, if_true] at h
  split at h
  · cases h
  · split at h
    · cases h
    · split at h <;> cases h

/-- The state at a failed capacity assertion: the old state with the count incremented. -/
theorem r_AddNewPrim_assertFailed_state (p : Tanto_R_Primitive) (m : Material) (x : Mat4)
    (s st : Renderer Material Mat4) (h : r_AddNewPrim p m x s = .assertFailed st) :
    st = { s with scene := { s.scene with primCount := (s.scene.primCount + 1) % 2 ^ 16 } } := by
  by_cases hlt : (s.scene.primCount + 1) % 2 ^ 16 < MAX_PRIM_COUNT
  · exact absurd h (r_AddNewPrim_not_assertFailed p m x s st hlt)
  · rw [r_AddNewPrim_of_not_lt p m x s hlt] at h
    cases h
    rfl

end Trap

set_option maxRecDepth 100000 in
/-- Claim C12, as stated, fails.  After 99 registrations `primCount` is 99; the next
registration, of a primitive with 3 indices, material 11 and transform 101, ends in the
failed capacity assertion with the count at 100, and at that point slot 99 holds none of
the three values supplied: its primitive has 0 indices, its material is 0, its transform
is 0, as before the call. -/
theorem C12_stores_before_check_refuted :
    sampleNinetyNine.scene.primCount = 99 ∧
      r_AddNewPrim (samplePrim 3) 11 101 sampleNinetyNine
        = .assertFailed (r_AddNewPrim (samplePrim 3) 11 101 sampleNinetyNine).state ∧
      (r_AddNewPrim (samplePrim 3) 11 101 sampleNinetyNine).state.scene.primCount = 100 ∧
      (readSlot (r_AddNewPrim (samplePrim 3) 11 101 sampleNinetyNine).state.scene.primitive
        99).map (fun prim => prim.indexCount) = some 0 ∧
      readSlot (r_AddNewPrim (samplePrim 3) 11 101 sampleNinetyNine).state.scene.materials 99
        = some 0 ∧
      readSlot (r_AddNewPrim (samplePrim 3) 11 101 sampleNinetyNine).state.scene.transforms 99
        = some 0 ∧
      readSlot (r_AddNewPrim (samplePrim 3) 11 101 sampleNinetyNine).state.scene.materials 99
        ≠ some 11 := by
  refine ⟨rfl, rfl, rfl, rfl, rfl, rfl, ?_⟩
  decide

/-- Claim C12, amended.  In `r_AddNewPrim` the capacity check comes after the increment of
`primCount` and before the three stores: the assertion traps exactly when the incremented
count is not below `MAX_PRIM_COUNT`, and at the trap the state is the old one with only
`primCount` incremented; the primitive, material and transform tables are as before the
call. -/
theorem C12_check_after_increment_before_stores {Material Mat4 : Type}
    (p : Tanto_R_Primitive) (m : Material) (x : Mat4) (s : Renderer Material Mat4) :
    (¬ (s.scene.primCount + 1) % 2 ^ 16 < MAX_PRIM_COUNT →
        r_AddNewPrim p m x s = .assertFailed
          { s with scene :=
            { s.scene with primCount := (s.scene.primCount + 1) % 2 ^ 16 } }) ∧
      (∀ st, r_AddNewPrim p m x s = .assertFailed st →
        ¬ (s.scene.primCount + 1) % 2 ^ 16 < MAX_PRIM_COUNT ∧
          st.scene.primCount = (s.scene.primCount + 1) % 2 ^ 16 ∧
          st.scene.primitive = s.scene.primitive ∧
          st.scene.materials = s.scene.materials ∧
          st.scene.transforms = s.scene.transforms) := by
  refine ⟨r_AddNewPrim_of_not_lt p m x s, ?_⟩
  intro st h
  have hst := r_AddNewPrim_assertFailed_state p m x s st h
  refine ⟨?_, ?_, ?_, ?_, ?_⟩
  · intro hlt
    exact r_AddNewPrim_not_assertFailed p m x s st hlt h
  all_goals rw [hst]

set_option maxRecDepth 100000 in
/-- Claim C12, amended, at the registration after 99 others: at the trap the count is 100
and the material table is the one from before the call. -/
theorem C12_check_after_increment_before_stores_witness :
    (r_AddNewPrim (samplePrim 3) 11 101 sampleNinetyNine).state.scene.primCount
        = (sampleNinetyNine.scene.primCount + 1) % 2 ^ 16 ∧
      (r_AddNewPrim (samplePrim 3) 11 101 sampleNinetyNine).state.scene.materials
        = sampleNinetyNine.scene.materials :=
  have h := (C12_check_after_increment_before_stores (samplePrim 3) 11 101
    sampleNinetyNine).2 (r_AddNewPrim (samplePrim 3) 11 101 sampleNinetyNine).state rfl
  ⟨h.2.1, h.2.2.2.1⟩

end HdTanto
